import Mathlib

/-!
Verification development for the multi-agent loan-processing orchestration
engine.  The Lean definitions below are a shallow embedding of the Python
sources:

* `loan_processing/agents/shared/utils/safe_evaluator.py`
  (`SafeConditionEvaluator`),
* `loan_processing/agents/providers/openai/orchestration/engine.py`
  (`OrchestrationContext`, `ProcessingEngine`),
* `loan_processing/agents/providers/openai/orchestration/base.py`
  (`AgentExecutionService`, `HandoffValidationService`),
* `loan_processing/agents/providers/openai/orchestration/sequential.py`
  (`SequentialPatternExecutor`),
* `loan_processing/agents/providers/openai/orchestration/parallel.py`
  (`ParallelPatternExecutor`),
* `loan_processing/models/decision.py` (`LoanDecisionStatus`, `LoanDecision`).

Modelling conventions: Python values flowing through agent-result maps are
modelled by the inductive type `PyVal` (floats as exact rationals); Python
dictionaries are association lists with first-match lookup; functions that can
raise are modelled in `Except String`; external effects (the OpenAI agent
call, wall-clock time, the progress callback, logging) are supplied as
explicit oracle arguments or abstracted where they cannot influence the
properties under study.  Wall-clock timestamps prefixed to audit entries are
omitted (the entry text is kept), and CPython float formatting is abstracted
to an exact decimal rendering of the rational value.
-/

/-- Python whitespace characters recognised by `str.strip` / `\s`. -/
def isSpaceChar (c : Char) : Bool :=
  c = ' ' || c = '\t' || c = '\n' || c = '\r' || c = '\x0b' || c = '\x0c'

/-- Characters matched by the regex class `\w` (ASCII range). -/
def isWordChar (c : Char) : Bool :=
  c.isAlpha || c.isDigit || c = '_'

/-- Remove leading whitespace (`str.lstrip`). -/
def trimLeft (l : List Char) : List Char :=
  l.dropWhile isSpaceChar

/-- Remove leading and trailing whitespace (`str.strip`). -/
def trimChars (l : List Char) : List Char :=
  ((trimLeft l).reverse.dropWhile isSpaceChar).reverse

/-- Does `pat` occur at the start of `text`? -/
def beginsWith : List Char → List Char → Bool
  | [], _ => true
  | _ :: _, [] => false
  | a :: as, b :: bs => a == b && beginsWith as bs

/-- Does `pat` occur contiguously anywhere inside `text`
(Python `pat in text` on strings)? -/
def containsSub (pat : List Char) : List Char → Bool
  | [] => beginsWith pat []
  | b :: bs => beginsWith pat (b :: bs) || containsSub pat bs

/-- First occurrence of `sep` in `l`: the part before it and the part after
it, or `none` when `sep` does not occur. -/
def splitAtSep (sep : List Char) : List Char → Option (List Char × List Char)
  | [] => if beginsWith sep [] then some ([], []) else none
  | b :: bs =>
    if beginsWith sep (b :: bs) then some ([], (b :: bs).drop sep.length)
    else match splitAtSep sep bs with
      | some (front, back) => some (b :: front, back)
      | none => none

/-- Fuel-driven worker for `splitOnSep`; the fuel is an upper bound on the
number of pieces, so `l.length + 1` always suffices for a non-empty
separator. -/
def splitOnSepFuel (sep : List Char) : Nat → List Char → List (List Char)
  | 0, l => [l]
  | n + 1, l =>
    match splitAtSep sep l with
    | none => [l]
    | some (front, back) => front :: splitOnSepFuel sep n back

/-- Python `text.split(sep)` for a non-empty separator. -/
def splitOnSep (sep l : List Char) : List (List Char) :=
  splitOnSepFuel sep (l.length + 1) l

/-- Convert a character list back to a `String`. -/
def ofChars (l : List Char) : String :=
  String.mk l

/-- Python runtime values that appear in agent-result maps and in parsed
condition literals.  Floats are modelled by exact rationals. -/
inductive PyVal where
  | intV (n : Int)
  | floatV (q : Rat)
  | strV (s : String)
  | boolV (b : Bool)
  | noneV
  | listV (xs : List PyVal)

/-- An agent-result map (`dict[str, Any]` in the source): an association
list with first-match lookup. -/
def PyDict : Type := List (String × PyVal)

/-- Dictionary lookup (`d[k]` / `d.get(k)`). -/
def dictFind (k : String) : PyDict → Option PyVal
  | [] => none
  | (k', v) :: rest => if k = k' then some v else dictFind k rest

/-- Numeric view of a Python value: `bool` is an `int` subtype in Python, so
`True` compares as `1` and `False` as `0`. -/
def toNum : PyVal → Option Rat
  | .intV n => some (n : Rat)
  | .floatV q => some q
  | .boolV b => some (if b then (1 : Rat) else 0)
  | _ => none

mutual

/-- Python `==` on the modelled values: numeric kinds compare by value,
everything else compares within its own kind, cross-kind is `False`
(`==` never raises). -/
def pyEq : PyVal → PyVal → Bool
  | .strV s, .strV t => s == t
  | .noneV, .noneV => true
  | .listV xs, .listV ys => pyEqList xs ys
  | a, b =>
    match toNum a, toNum b with
    | some x, some y => x == y
    | _, _ => false

/-- Elementwise Python `==` on lists. -/
def pyEqList : List PyVal → List PyVal → Bool
  | [], [] => true
  | x :: xs, y :: ys => pyEq x y && pyEqList xs ys
  | _, _ => false

end

mutual

/-- Python `<`: numbers (including `bool`) by value, strings and lists
lexicographically; any other pairing raises `TypeError`, modelled as
`none`. -/
def pyLt : PyVal → PyVal → Option Bool
  | .strV s, .strV t => some (decide (s < t))
  | .listV xs, .listV ys => pyLtList xs ys
  | a, b =>
    match toNum a, toNum b with
    | some x, some y => some (decide (x < y))
    | _, _ => none

/-- Python list ordering: first unequal pair decides, otherwise the shorter
list is smaller. -/
def pyLtList : List PyVal → List PyVal → Option Bool
  | [], [] => some false
  | [], _ :: _ => some true
  | _ :: _, [] => some false
  | x :: xs, y :: ys => if pyEq x y then pyLtList xs ys else pyLt x y

end

/-- Python `a in b`: list membership via `==`, substring test when both are
strings; any other right operand raises `TypeError` (`none`). -/
def pyIn : PyVal → PyVal → Option Bool
  | a, .listV ys => some (ys.any (fun y => pyEq a y))
  | .strV s, .strV t => some (containsSub s.data t.data)
  | _, _ => none

/-- The `OPERATORS` table of `SafeConditionEvaluator`
(safe_evaluator.py:19-28) applied to two operands; `none` models the
`TypeError`/`ValueError` caught at safe_evaluator.py:102. -/
def applyOp (op : String) (a b : PyVal) : Option Bool :=
  if op = ">" then pyLt b a
  else if op = "<" then pyLt a b
  else if op = ">=" then (pyLt a b).map (fun r => !r)
  else if op = "<=" then (pyLt b a).map (fun r => !r)
  else if op = "==" then some (pyEq a b)
  else if op = "!=" then some (!pyEq a b)
  else if op = "in" then pyIn a b
  else if op = "not in" then (pyIn a b).map (fun r => !r)
  else none

/-- Keys of the `OPERATORS` dict (safe_evaluator.py:19-28). -/
def operatorKeys : List String :=
  [">", "<", ">=", "<=", "==", "!=", "in", "not in"]

/-- Parse a decimal integer literal the way Python `int(...)` accepts it on
an already-stripped string: an optional sign followed by at least one digit
(numeric-literal underscores are not modelled). -/
def parseIntLit (l : List Char) : Option Int :=
  let (sign, digits) :=
    match l with
    | '-' :: rest => ((-1 : Int), rest)
    | '+' :: rest => ((1 : Int), rest)
    | rest => ((1 : Int), rest)
  if digits = [] || !digits.all Char.isDigit then none
  else some (sign * (digits.foldl (fun acc c => acc * 10 + (c.toNat - '0'.toNat)) 0 : Nat))

/-- Digits to a natural number. -/
def digitsToNat (l : List Char) : Nat :=
  l.foldl (fun acc c => acc * 10 + (c.toNat - '0'.toNat)) 0

/-- Parse a decimal float literal the way Python `float(...)` accepts it on
an already-stripped string (sign, integer part, fractional part, optional
exponent; at least one digit around the dot), as an exact rational. -/
def parseFloatLit (l : List Char) : Option Rat :=
  let (sign, rest) :=
    match l with
    | '-' :: r => ((-1 : Rat), r)
    | '+' :: r => ((1 : Rat), r)
    | r => ((1 : Rat), r)
  let ip := rest.takeWhile Char.isDigit
  let rest1 := rest.drop ip.length
  let (fp, rest2) :=
    match rest1 with
    | '.' :: r =>
      let f := r.takeWhile Char.isDigit
      (f, r.drop f.length)
    | r => ([], r)
  if ip = [] && fp = [] then none
  else
    let mant : Rat := (sign * (digitsToNat ip * 10 ^ fp.length + digitsToNat fp : Nat)) / (10 ^ fp.length : Nat)
    match rest2 with
    | [] => some mant
    | e :: r =>
      if e = 'e' || e = 'E' then
        let (esign, er) :=
          match r with
          | '-' :: t => (false, t)
          | '+' :: t => (true, t)
          | t => (true, t)
        if er = [] || !er.all Char.isDigit then none
        else
          let ex := digitsToNat er
          some (if esign then mant * 10 ^ ex else mant / 10 ^ ex)
      else none

/-- Fuel-driven worker for `parse_value`; list items are strictly shorter
than the bracketed list, so `l.length + 1` fuel always suffices. -/
def parseValueFuel : Nat → List Char → PyVal
  | 0, l => .strV (ofChars l)
  | n + 1, l =>
    let s := trimChars l
    if s.headD ' ' = '"' && s.getLastD ' ' = '"' then
      .strV (ofChars ((s.drop 1).dropLast))
    else if s.headD ' ' = '\'' && s.getLastD ' ' = '\'' then
      .strV (ofChars ((s.drop 1).dropLast))
    else if s.headD ' ' = '[' && s.getLastD ' ' = ']' then
      let inner := (s.drop 1).dropLast
      if trimChars inner = [] then .listV []
      else .listV ((splitOnSep [','] inner).map (fun item => parseValueFuel n (trimChars item)))
    else
      match (if ('.' ∈ s) then none else parseIntLit s) with
      | some n => .intV n
      | none =>
        match (if ('.' ∈ s) then parseFloatLit s else none) with
        | some q => .floatV q
        | none =>
          if (ofChars (s.map Char.toLower)) = "true" then .boolV true
          else if (ofChars (s.map Char.toLower)) = "false" then .boolV false
          else if (ofChars (s.map Char.toLower)) = "none" then .noneV
          else .strV (ofChars s)

/-- `SafeConditionEvaluator._parse_value` (safe_evaluator.py:105-149):
quoted string, bracketed list (recursively parsed), integer, float,
boolean, `none`, else bare string. -/
def parse_value (l : List Char) : PyVal :=
  parseValueFuel (l.length + 1) l

/-- One operator alternative of the regex at safe_evaluator.py:76 matched at
the start of `l`: the candidates, in the alternation order
`>=|<=|==|!=|>|<|in|not\s+in`, paired with the remaining text. -/
def opCandidates (l : List Char) : List (List Char × List Char) :=
  ([">=", "<=", "==", "!=", ">", "<", "in"].filterMap (fun op =>
    if beginsWith op.data l then some (op.data, l.drop op.data.length) else none))
  ++ (if beginsWith "not".data l then
      let r := l.drop 3
      let sp := r.takeWhile isSpaceChar
      if sp ≠ [] && beginsWith "in".data (r.drop sp.length) then
        [("not".data ++ sp ++ "in".data, r.drop (sp.length + 2))]
      else []
    else [])

/-- Try to complete the regex match after a chosen field prefix: skip `\s*`,
take the first operator alternative whose remaining text is non-empty (the
`(.+)$` group needs at least one character; the regex engine backtracks over
the alternation exactly like this). -/
def matchAfterField (rest : List Char) : Option (List Char × List Char) :=
  (opCandidates (rest.dropWhile isSpaceChar)).find? (fun c => !c.2.isEmpty)

/-- Backtracking over the greedy `(\w+)` group: try field lengths from `k`
down to 1. -/
def regexGo (l : List Char) : Nat → Option (List Char × List Char × List Char)
  | 0 => none
  | k + 1 =>
    match matchAfterField (l.drop (k + 1)) with
    | some (op, value) => some (l.take (k + 1), op, value)
    | none => regexGo l k

/-- The regex `^(\w+)\s*(>=|<=|==|!=|>|<|in|not\s+in)\s*(.+)$` of
safe_evaluator.py:76-77, with Python `re` backtracking semantics: longest
field first, alternation in declared order, and the value group returned
still carrying its leading whitespace (callers strip it). -/
def regexMatchSimple (l : List Char) : Option (List Char × List Char × List Char) :=
  regexGo l (l.takeWhile isWordChar).length

/-- `SafeConditionEvaluator._evaluate_simple_condition`
(safe_evaluator.py:66-103).  `Except.error` models the raised `ValueError`
(the spec's `ConditionError`); the dynamic text of the comparison failure
message is abbreviated. -/
def evaluate_simple_condition (l : List Char) (context : PyDict) : Except String Bool :=
  if l.isEmpty || (trimChars l).isEmpty then .ok false
  else
    match regexMatchSimple l with
    | none => .error ("Invalid condition format: " ++ ofChars l)
    | some (field, opRaw, valueRaw) =>
      let op := ofChars (trimChars opRaw)
      if !(operatorKeys.contains op) then .error ("Unsupported operator: " ++ op)
      else
        match dictFind (ofChars field) context with
        | none => .error ("Field '" ++ ofChars field ++ "' not found in context")
        | some fieldValue =>
          let comparisonValue := parse_value (trimChars valueRaw)
          match applyOp op fieldValue comparisonValue with
          | none => .error ("Cannot compare " ++ op ++ " operands")
          | some b => .ok b

/-- Python `all(evaluate(part) for part in parts)`: a generator-driven
`all` stops at the first `False`, so parts after it are never evaluated
(safe_evaluator.py:59). -/
def evalAllParts (context : PyDict) : List (List Char) → Except String Bool
  | [] => .ok true
  | p :: rest =>
    match evaluate_simple_condition (trimChars p) context with
    | .error e => .error e
    | .ok false => .ok false
    | .ok true => evalAllParts context rest

/-- Python `any(evaluate(part) for part in parts)`: stops at the first
`True` (safe_evaluator.py:62). -/
def evalAnyParts (context : PyDict) : List (List Char) → Except String Bool
  | [] => .ok false
  | p :: rest =>
    match evaluate_simple_condition (trimChars p) context with
    | .error e => .error e
    | .ok true => .ok true
    | .ok false => evalAnyParts context rest

/-- The `" and "` separator. -/
def andSep : List Char := [' ', 'a', 'n', 'd', ' ']

/-- The `" or "` separator. -/
def orSep : List Char := [' ', 'o', 'r', ' ']

/-- `SafeConditionEvaluator.evaluate_condition` (safe_evaluator.py:30-64)
restricted to string input: empty input returns `False`; the stripped
condition is split on `" and "` (preferred) or `" or "` and the parts are
combined with Python `all`/`any`, otherwise it is one simple condition. -/
def evaluate_condition (condition : String) (context : PyDict) : Except String Bool :=
  if condition.data.isEmpty then .ok false
  else
    let c := trimChars condition.data
    if containsSub andSep c then evalAllParts context (splitOnSep andSep c)
    else if containsSub orSep c then evalAnyParts context (splitOnSep orSep c)
    else evaluate_simple_condition c context

/-- `SafeConditionEvaluator.evaluate_condition` on an arbitrary runtime
value: safe_evaluator.py:51-52 returns `False` for falsy input and for any
non-string input before touching the grammar. -/
def evaluate_condition_any (condition : PyVal) (context : PyDict) : Except String Bool :=
  match condition with
  | .strV s => evaluate_condition s context
  | _ => .ok false

/-- The `_evaluate_condition` wrapper shared by the engine, the execution
service and the handoff service (engine.py:356-365, base.py:335-344,
base.py:377-386): any raised `ValueError` is swallowed and the condition
counts as `False`. -/
def evalCondBool (condition : String) (result : PyDict) : Bool :=
  match evaluate_condition condition result with
  | .ok b => b
  | .error _ => false

mutual

/-- Python `repr`/`str` rendering of a modelled value, used only inside
audit-trail text; CPython float formatting is abstracted to an exact
rational rendering. -/
def pyValRepr : PyVal → String
  | .intV n => toString n
  | .floatV q => toString q.num ++ (if q.den = 1 then ".0" else "/" ++ toString q.den)
  | .strV s => "'" ++ s ++ "'"
  | .boolV b => if b then "True" else "False"
  | .noneV => "None"
  | .listV xs => "[" ++ pyValListRepr xs ++ "]"

/-- Comma-joined renderings of list elements. -/
def pyValListRepr : List PyVal → String
  | [] => ""
  | [x] => pyValRepr x
  | x :: y :: rest => pyValRepr x ++ ", " ++ pyValListRepr (y :: rest)

end

/-- Python `str(dict)` rendering of a result map. -/
def pyDictRepr (d : PyDict) : String :=
  "\x7b" ++ String.intercalate ", " (d.map (fun kv => "'" ++ kv.1 ++ "': " ++ pyValRepr kv.2)) ++ "\x7d"

/-- Python `repr` of a list of strings (used for `list(dict.keys())`). -/
def pyStrListRepr (l : List String) : String :=
  "[" ++ String.intercalate ", " (l.map (fun s => "'" ++ s ++ "'")) ++ "]"

/-- Python `str.title()` for the agent names appearing in audit entries. -/
def titleCaseGo : Bool → List Char → List Char
  | _, [] => []
  | prevAlpha, c :: rest =>
    (if c.isAlpha && !prevAlpha then c.toUpper else c.toLower) :: titleCaseGo c.isAlpha rest

/-- Python `str.title()`. -/
def titleCase (s : String) : String :=
  ofChars (titleCaseGo false s.data)

/-- Rendering of a duration with two decimals (Python `f"{d:.2f}"`); CPython
binary-float rounding is abstracted to truncation of the exact rational. -/
def fmt2 (q : Rat) : String :=
  let cents : Int := (q * 100).floor
  let whole : Int := cents / 100
  let frac : Nat := (cents % 100).toNat
  toString whole ++ "." ++ (if frac < 10 then "0" ++ toString frac else toString frac)

/-- Association-list lookup mirroring Python attribute/dict access. -/
def assocFind {α : Type} (k : String) : List (String × α) → Option α
  | [] => none
  | (k1, v) :: rest => if k = k1 then some v else assocFind k rest

/-- Association-list update mirroring Python `d[k] = v` / `setattr`:
an existing key keeps its position, a new key is appended. -/
def assocUpsert {α : Type} (k : String) (v : α) : List (String × α) → List (String × α)
  | [] => [(k, v)]
  | (k1, v1) :: rest => if k = k1 then (k, v) :: rest else (k1, v1) :: assocUpsert k v rest

/-- `OrchestrationContext` (engine.py:38-60).  The four declared
`*_result` attributes together with any attribute later created by
`setattr(self, f"{agent_type}_result", ...)` (engine.py:69) and read back by
`getattr(context, f"{agent_type}_result", None)` are modelled by the single
association list `results` (a declared-but-unset attribute and a missing
attribute both read as `None`, i.e. `none`).  The progress callback is
external and, per engine.py:74-121, can never alter these fields nor raise
into the run, so it is not part of the state. -/
structure OrchestrationContext where
  application_id : String
  session_id : String
  pattern_name : String
  results : List (String × PyDict)
  audit_trail : List String
  agent_durations : List (String × Rat)
  errors : List String
  contextMetadata : PyDict

/-- `OrchestrationContext.add_audit_entry` (engine.py:62-65); the wall-clock
timestamp prefix is omitted. -/
def add_audit_entry (ctx : OrchestrationContext) (message : String) : OrchestrationContext :=
  { ctx with audit_trail := ctx.audit_trail ++ [message] }

/-- `getattr(context, f"{agent_type}_result", None)`. -/
def getAgentResult (ctx : OrchestrationContext) (agent_type : String) : Option PyDict :=
  assocFind agent_type ctx.results

/-- `OrchestrationContext.set_agent_result` (engine.py:67-87): store the
result, record the duration, append an audit entry (the progress callback
is swallowed-failure fire-and-forget and does not touch the state). -/
def set_agent_result (ctx : OrchestrationContext) (agent_type : String)
    (result : PyDict) (duration : Rat) : OrchestrationContext :=
  let ctx1 := { ctx with
    results := assocUpsert agent_type result ctx.results,
    agent_durations := assocUpsert agent_type duration ctx.agent_durations }
  add_audit_entry ctx1 (titleCase agent_type ++ " agent completed in " ++ fmt2 duration ++ "s")

/-- `context.errors.append(msg)`. -/
def appendError (ctx : OrchestrationContext) (e : String) : OrchestrationContext :=
  { ctx with errors := ctx.errors ++ [e] }

/-- `OrchestrationContext.notify_agent_start` (engine.py:89-95): pure
progress notification, swallows callback failures, leaves the context
unchanged. -/
def notify_agent_start (ctx : OrchestrationContext) (_agent_type : String) : OrchestrationContext :=
  ctx

/-- `OrchestrationContext.notify_agent_thinking` (engine.py:97-105). -/
def notify_agent_thinking (ctx : OrchestrationContext) (_agent_type : String) : OrchestrationContext :=
  ctx

/-- `OrchestrationContext.notify_agent_error` (engine.py:107-121). -/
def notify_agent_error (ctx : OrchestrationContext) (_agent_type : String)
    (_error : String) (_duration : Rat) : OrchestrationContext :=
  ctx

/-- Python truthiness of an optional result dict: `None` and the empty dict
are falsy. -/
def truthyResult : Option PyDict → Bool
  | none => false
  | some r => !r.isEmpty

/-- One handoff rule of the pattern configuration (`from`/`to`/`conditions`
keys of a YAML mapping; `conditions` defaults to the empty list as in
`rule.get("conditions", [])`). -/
structure HandoffRule where
  fromAgent : String
  toAgent : String
  conditions : List String := []

/-- `HandoffValidationService.check_handoff_conditions` (base.py:354-375):
no rule for the completed agent means no gate; a missing (or empty, hence
falsy) upstream result means `False`; otherwise every condition must hold,
each evaluated through the swallowing `_evaluate_condition` wrapper. -/
def check_handoff_conditions (handoff_rules : List (String × HandoffRule))
    (from_agent : String) (ctx : OrchestrationContext) : Bool :=
  match assocFind from_agent handoff_rules with
  | none => true
  | some rule =>
    let agent_result := getAgentResult ctx from_agent
    if !truthyResult agent_result then false
    else rule.conditions.all (fun c => evalCondBool c (agent_result.getD []))

/-- The slice of one agent entry of the pattern configuration consumed by
the executors: `type`, `success_conditions`, `depends_on` (`type` is a Lean
keyword-adjacent name, rendered `agentType`). -/
structure AgentCfg where
  agentType : String
  success_conditions : List String := []
  depends_on : List String := []

/-- Behaviour of the external OpenAI call for one stage, the oracle of this
embedding: either a parsed result map with the elapsed duration, or the text
of the exception the stage raised (agent construction, MCP connection,
timeout — base.py:123-156) with the elapsed duration. -/
def StageOutcome : Type := Except (String × Rat) (PyDict × Rat)

/-- `AgentExecutionService._validate_success_conditions` (base.py:327-333). -/
def validate_success_conditions (conditions : List String) (result : PyDict) : Bool :=
  conditions.all (fun c => evalCondBool c result)

/-- The error message composed at base.py:174. -/
def agentFailureMsg (agent_type : String) (duration : Rat) (e : String) : String :=
  agent_type ++ " agent failed after " ++ fmt2 duration ++ "s: " ++ e

/-- The `except` block of `AgentExecutionService.execute_agent`
(base.py:172-181): append the composed message to the audit trail and the
error list, then re-raise the original exception (`raise`), modelled by
returning `some e`. -/
def recordAgentFailure (agent_type : String) (e : String) (duration : Rat)
    (ctx : OrchestrationContext) : OrchestrationContext × Option String :=
  let msg := agentFailureMsg agent_type duration e
  let ctx1 := appendError (add_audit_entry ctx msg) msg
  (notify_agent_error ctx1 agent_type e duration, some e)

/-- `AgentExecutionService.execute_agent` (base.py:112-181) against the
stage oracle.  On success the audit entries of the happy path are appended
and the result is stored; if the configured success conditions fail, the
`ValueError` of base.py:170 is raised after the result was already stored.
MCP-connection audit entries, being part of the external call, are folded
into the oracle.  The second component is the exception propagating to the
caller (`none` when the stage completed). -/
def execute_agent (cfg : AgentCfg) (outcome : StageOutcome)
    (ctx : OrchestrationContext) : OrchestrationContext × Option String :=
  let t := cfg.agentType
  let ctx := add_audit_entry ctx ("Starting " ++ t ++ " agent execution")
  let ctx := notify_agent_start ctx t
  match outcome with
  | .error (e, d) => recordAgentFailure t e d ctx
  | .ok (res, d) =>
    let ctx := add_audit_entry ctx ("Sending request to OpenAI for " ++ t ++ " agent...")
    let ctx := notify_agent_thinking ctx t
    let ctx := add_audit_entry ctx ("Received response from OpenAI for " ++ t ++ " agent")
    let ctx := add_audit_entry ctx ("DEBUG: " ++ t ++ " agent returned: " ++ pyDictRepr res)
    let ctx := set_agent_result ctx t res d
    if validate_success_conditions cfg.success_conditions res then (ctx, none)
    else recordAgentFailure t (t ++ " agent did not meet success conditions") d ctx

/-- Whether `execute_agent` completes without raising for this stage and
oracle outcome (success result present and success conditions met). -/
def stageSucceeds (cfg : AgentCfg) (outcome : StageOutcome) : Bool :=
  match outcome with
  | .ok (res, _) => validate_success_conditions cfg.success_conditions res
  | .error _ => false

/-- The handoff gate of `SequentialPatternExecutor.execute`
(sequential.py:56-74): the first agent is not gated; agent `i > 0` is gated
on the type of agent `i - 1`. -/
def seqGate (handoff_rules : List (String × HandoffRule)) (prev : Option String)
    (ctx : OrchestrationContext) : Bool :=
  match prev with
  | none => true
  | some p => check_handoff_conditions handoff_rules p ctx

/-- The `for` loop of `SequentialPatternExecutor.execute`
(sequential.py:53-99), each stage paired with its oracle outcome.  Returns
the final context, the list of agent types actually executed from this
point on, and the exception propagating to the caller (`none` for a clean
finish, including the handoff-blocked early stop; the closing audit entry of
sequential.py:99 is appended exactly on the clean paths). -/
def seqLoop (handoff_rules : List (String × HandoffRule)) (prev : Option String)
    (stages : List (AgentCfg × StageOutcome)) (ctx : OrchestrationContext) :
    OrchestrationContext × List String × Option String :=
  match stages with
  | [] => (add_audit_entry ctx "Sequential execution completed", [], none)
  | (cfg, outcome) :: rest =>
    if !seqGate handoff_rules prev ctx then
      (add_audit_entry (add_audit_entry ctx
          ("Handoff conditions not met for " ++ cfg.agentType ++ ", stopping workflow"))
        "Sequential execution completed", [], none)
    else
      let r := execute_agent cfg outcome (add_audit_entry ctx ("Executing agent: " ++ cfg.agentType))
      match r.2 with
      | some e => (r.1, [cfg.agentType], some e)
      | none =>
        let rr := seqLoop handoff_rules (some cfg.agentType) rest
          (add_audit_entry r.1 ("Completed agent: " ++ cfg.agentType))
        (rr.1, cfg.agentType :: rr.2.1, rr.2.2)

/-- `SequentialPatternExecutor.execute` (sequential.py:37-99): opening audit
entry, then the gated loop. -/
def sequentialExecute (handoff_rules : List (String × HandoffRule))
    (stages : List (AgentCfg × StageOutcome)) (ctx : OrchestrationContext) :
    OrchestrationContext × List String × Option String :=
  let ctx := add_audit_entry ctx
    ("Starting sequential execution with " ++ toString stages.length ++ " agents")
  seqLoop handoff_rules none stages ctx

/-- One parallel branch of the pattern configuration, each agent paired with
its stage-oracle outcome. -/
structure BranchCfg where
  branch_name : String
  agents : List (AgentCfg × StageOutcome)

/-- The dependency check of `ParallelPatternExecutor._execute_branch_agent`
(parallel.py:107-113): the first declared dependency whose result attribute
is `None` (note: `is None`, not truthiness — an empty dict passes). -/
def firstMissingDep (deps : List String) (ctx : OrchestrationContext) : Option String :=
  deps.find? (fun d => (getAgentResult ctx d).isNone)

/-- `ParallelPatternExecutor._handle_branch_failure` (parallel.py:150-166):
log the failure to the audit trail and the error list and swallow it (the
branch does not re-raise). -/
def handle_branch_failure (agent_type branch_name e : String)
    (ctx : OrchestrationContext) : OrchestrationContext :=
  let msg := "Branch failure in " ++ branch_name ++ ": " ++ agent_type ++ " failed with " ++ e
  appendError (add_audit_entry ctx msg) msg

/-- `ParallelPatternExecutor._execute_branch_agent` (parallel.py:94-121): a
total function into the context — every exception of the branch body
(unsatisfied dependency or stage failure) is caught and recorded, never
re-raised. -/
def execute_branch_agent (cfg : AgentCfg) (outcome : StageOutcome)
    (branch_name : String) (ctx : OrchestrationContext) : OrchestrationContext :=
  let t := cfg.agentType
  let ctx := add_audit_entry ctx ("Executing " ++ t ++ " in branch: " ++ branch_name)
  match firstMissingDep cfg.depends_on ctx with
  | some d =>
    let e := "Dependency '" ++ d ++ "' not satisfied for agent '" ++ t ++ "'"
    handle_branch_failure t branch_name e
      (add_audit_entry ctx ("Failed " ++ t ++ " in branch " ++ branch_name ++ ": " ++ e))
  | none =>
    let r := execute_agent cfg outcome ctx
    match r.2 with
    | none => add_audit_entry r.1 ("Completed " ++ t ++ " in branch: " ++ branch_name)
    | some e =>
      handle_branch_failure t branch_name e
        (add_audit_entry r.1 ("Failed " ++ t ++ " in branch " ++ branch_name ++ ": " ++ e))

/-- The branch tasks created at parallel.py:79-86, in declaration order:
`(branch name, agent, oracle outcome)` triples. -/
def branchTasks (branches : List BranchCfg) : List (String × AgentCfg × StageOutcome) :=
  branches.flatMap (fun b => b.agents.map (fun a => (b.branch_name, a)))

/-- The `asyncio.gather` phase (parallel.py:88-92).  The branch tasks all
run on the shared context; their interleaving is serialised here in
declaration order — each task is total (`execute_branch_agent` never
raises), so every task runs to completion whatever its siblings do, which is
the isolation property under study, and `gather(..., return_exceptions=True)`
waits for all of them.  Returns the context and the agent types attempted. -/
def branchTaskLoop (tasks : List (String × AgentCfg × StageOutcome))
    (ctx : OrchestrationContext) : OrchestrationContext × List String :=
  match tasks with
  | [] => (ctx, [])
  | (bn, cfg, o) :: rest =>
    let rr := branchTaskLoop rest (execute_branch_agent cfg o bn ctx)
    (rr.1, cfg.agentType :: rr.2)

/-- `ParallelPatternExecutor._execute_parallel_branches` (parallel.py:68-92)
with its audit entries. -/
def execute_parallel_branches (branches : List BranchCfg)
    (ctx : OrchestrationContext) : OrchestrationContext × List String :=
  let ctx := add_audit_entry ctx ("Starting " ++ toString branches.length ++ " parallel branches")
  let ctx := branches.foldl
    (fun c b => add_audit_entry c ("Creating task for branch: " ++ b.branch_name)) ctx
  let tasks := branchTasks branches
  if tasks.isEmpty then (ctx, [])
  else
    let rr := branchTaskLoop tasks (add_audit_entry ctx
      ("Executing " ++ toString tasks.length ++ " branch agents concurrently"))
    (add_audit_entry rr.1 "All parallel branches completed", rr.2)

/-- The dependency warnings of `_execute_synthesis_agents`
(parallel.py:140-144): missing dependencies only produce audit entries,
never failures. -/
def synthDepWarnings (cfg : AgentCfg) (ctx : OrchestrationContext) : OrchestrationContext :=
  cfg.depends_on.foldl
    (fun c d =>
      if (getAgentResult c d).isNone then
        add_audit_entry c ("Warning: Synthesis agent " ++ cfg.agentType ++ " missing dependency: " ++ d)
      else c)
    ctx

/-- The loop body of `ParallelPatternExecutor._execute_synthesis_agents`
(parallel.py:136-148); a synthesis-stage failure is not caught there and
propagates. -/
def synthLoop (stages : List (AgentCfg × StageOutcome)) (ctx : OrchestrationContext) :
    OrchestrationContext × List String × Option String :=
  match stages with
  | [] => (ctx, [], none)
  | (cfg, o) :: rest =>
    let r := execute_agent cfg o
      (add_audit_entry (synthDepWarnings cfg ctx) ("Executing synthesis agent: " ++ cfg.agentType))
    match r.2 with
    | some e => (r.1, [cfg.agentType], some e)
    | none =>
      let rr := synthLoop rest (add_audit_entry r.1 ("Completed synthesis agent: " ++ cfg.agentType))
      (rr.1, cfg.agentType :: rr.2.1, rr.2.2)

/-- `ParallelPatternExecutor._execute_synthesis_agents` (parallel.py:123-148). -/
def execute_synthesis_agents (stages : List (AgentCfg × StageOutcome))
    (ctx : OrchestrationContext) : OrchestrationContext × List String × Option String :=
  if stages.isEmpty then (ctx, [], none)
  else
    let ctx := add_audit_entry ctx ("Executing " ++ toString stages.length ++ " synthesis agents")
    synthLoop stages ctx

/-- The initial-stage loop of `ParallelPatternExecutor._execute_initial_agents`
(parallel.py:47-66); an initial-stage failure is not caught and propagates. -/
def initLoop (stages : List (AgentCfg × StageOutcome)) (ctx : OrchestrationContext) :
    OrchestrationContext × Option String :=
  match stages with
  | [] => (ctx, none)
  | (cfg, o) :: rest =>
    let r := execute_agent cfg o (add_audit_entry ctx ("Executing initial agent: " ++ cfg.agentType))
    match r.2 with
    | some e => (r.1, some e)
    | none => initLoop rest (add_audit_entry r.1 ("Completed initial agent: " ++ cfg.agentType))

/-- The branch phase of `ParallelPatternExecutor.execute` (parallel.py:39-40):
run only when the configuration declares `parallel_branches`. -/
def parallelBranchPhase (branches : Option (List BranchCfg))
    (ctx : OrchestrationContext) : OrchestrationContext × List String :=
  match branches with
  | some bs => execute_parallel_branches bs ctx
  | none => (ctx, [])

/-- The part of `ParallelPatternExecutor.execute` after the initial agents
succeeded (parallel.py:38-45): branch phase, then synthesis, then the
closing audit entry. -/
def parallelTail (branches : Option (List BranchCfg))
    (synthesis : List (AgentCfg × StageOutcome)) (ctx1 : OrchestrationContext) :
    OrchestrationContext × List String × List String × Option String :=
  let br := parallelBranchPhase branches ctx1
  let sy := execute_synthesis_agents synthesis br.1
  match sy.2.2 with
  | some e => (sy.1, br.2, sy.2.1, some e)
  | none =>
    (add_audit_entry sy.1 "Parallel orchestration execution completed", br.2, sy.2.1, none)

/-- `ParallelPatternExecutor.execute` (parallel.py:25-45): initial agents,
then the parallel branches (when configured), then the synthesis agents.
Returns the final context, the branch agent types attempted, the synthesis
agent types attempted, and the propagating exception if any. -/
def parallelExecute (initial : List (AgentCfg × StageOutcome))
    (branches : Option (List BranchCfg)) (synthesis : List (AgentCfg × StageOutcome))
    (ctx : OrchestrationContext) :
    OrchestrationContext × List String × List String × Option String :=
  let ctx := add_audit_entry ctx "Starting parallel orchestration execution"
  let ctx := add_audit_entry ctx ("Executing " ++ toString initial.length ++ " initial agents")
  let r := initLoop initial ctx
  match r.2 with
  | some e => (r.1, [], [], some e)
  | none => parallelTail branches synthesis r.1

/-- `LoanDecisionStatus` (models/decision.py:17-24).  Note the member list:
there is `CONDITIONAL`, but no `CONDITIONAL_APPROVAL`. -/
inductive LoanDecisionStatus where
  | approved
  | denied
  | conditional
  | manual_review
  | pending
deriving DecidableEq

/-- Python attribute access `LoanDecisionStatus.<name>` on the enum class of
models/decision.py:17-24: a missing member raises `AttributeError`. -/
def statusAttr (name : String) : Except String LoanDecisionStatus :=
  if name = "APPROVED" then .ok .approved
  else if name = "DENIED" then .ok .denied
  else if name = "CONDITIONAL" then .ok .conditional
  else if name = "MANUAL_REVIEW" then .ok .manual_review
  else if name = "PENDING" then .ok .pending
  else .error ("type object 'LoanDecisionStatus' has no attribute '" ++ name ++ "'")

/-- The fields of `LoanDecision` (models/decision.py:27-80) that the
orchestration engine populates.  `confidence_score` is the exact rational
standing for the float field; approved terms keep their raw values. -/
structure LoanDecision where
  application_id : String
  decision : LoanDecisionStatus
  decision_reason : String
  confidence_score : Rat
  approved_amount : Option PyVal
  approved_rate : Option PyVal
  approved_term_months : Option PyVal
  decision_maker : String
  review_priority : String
  reasoning : String
  orchestration_pattern : String

/-- One entry of the `decision_matrix` mapping of the pattern configuration:
outcome label paired with `description` (optional key) and `conditions`
(defaulting to `[]` as in `config.get("conditions", [])`, so a missing list
and an empty list coincide). -/
structure DecisionRuleCfg where
  description : Option String := none
  conditions : List String := []

/-- The merged, stage-namespaced result map built at engine.py:329-334:
for each of the four agent types, a truthy result contributes its entries
under keys `f"{agent_type}_{k}"`. -/
def mergedResults (ctx : OrchestrationContext) : PyDict :=
  (["intake", "credit", "income", "risk"].map (fun t =>
    match getAgentResult ctx t with
    | some r => if r.isEmpty then [] else r.map (fun kv => (t ++ "_" ++ kv.1, kv.2))
    | none => [])).flatten

/-- Whether a decision-matrix entry matches: `all(...)` over its conditions,
each evaluated through the swallowing `_evaluate_condition` wrapper
(engine.py:339, 356-365). -/
def decisionRuleMatches (merged : PyDict) (rule : String × DecisionRuleCfg) : Bool :=
  rule.2.conditions.all (fun c => evalCondBool c merged)

/-- The `status_map` dict literal of engine.py:341-346, built only after a
rule matched.  Its construction evaluates
`LoanDecisionStatus.CONDITIONAL_APPROVAL`, an attribute access on the enum
of models/decision.py — composing the two faithful models makes the
`AttributeError` arise here exactly as in CPython. -/
def statusMapEntries : Except String (List (String × LoanDecisionStatus)) := do
  let a ← statusAttr "APPROVED"
  let c ← statusAttr "CONDITIONAL_APPROVAL"
  let m ← statusAttr "MANUAL_REVIEW"
  let d ← statusAttr "DENIED"
  .ok [("auto_approve", a), ("conditional_approval", c), ("manual_review", m), ("auto_deny", d)]

/-- `ProcessingEngine._apply_decision_matrix` (engine.py:324-354): build the
merged namespaced map, walk the matrix in declared order, and for the first
matching entry map its label through `status_map` and return it with the
entry's description; with no match, the default manual-review outcome. -/
def apply_decision_matrix (decision_matrix : List (String × DecisionRuleCfg))
    (ctx : OrchestrationContext) : Except String (LoanDecisionStatus × String) :=
  let all_results := mergedResults ctx
  match decision_matrix.find? (decisionRuleMatches all_results) with
  | none => .ok (.manual_review, "No decision matrix conditions matched")
  | some (decision_type, config) => do
    let sm ← statusMapEntries
    let status := (assocFind decision_type sm).getD .manual_review
    .ok (status, config.description.getD ("Decision: " ++ decision_type))

/-- `ProcessingEngine._determine_priority` (engine.py:387-398). -/
def determine_priority (risk_result : PyDict) : String :=
  let rc := (dictFind "final_risk_category" risk_result).getD (.strV "MODERATE")
  if pyEq rc (.strV "VERY_HIGH") then "urgent"
  else if pyEq rc (.strV "HIGH") then "high"
  else if pyEq rc (.strV "LOW") then "low"
  else "standard"

/-- `ProcessingEngine._build_decision_reasoning` (engine.py:400-419); the
per-agent summary lines and the last ten audit entries, joined with
newlines. -/
def build_decision_reasoning (ctx : OrchestrationContext) : String :=
  let base := [
    "Orchestration Pattern: " ++ ctx.pattern_name,
    "Session ID: " ++ ctx.session_id,
    "Total Processing Time: " ++ fmt2 ((ctx.agent_durations.map (fun kv => kv.2)).sum) ++ "s",
    "",
    "Agent Processing Summary:"]
  let agentLines := ctx.agent_durations.map (fun kv =>
    let res := (getAgentResult ctx kv.1).getD []
    let conf := ((dictFind "confidence_score" res).bind toNum).getD 0
    "- " ++ titleCase kv.1 ++ ": " ++ fmt2 kv.2 ++ "s (confidence: " ++ fmt2 conf ++ ")")
  let auditPart :=
    if ctx.audit_trail.isEmpty then []
    else ["", "Audit Trail:"] ++ (ctx.audit_trail.reverse.take 10).reverse
  String.intercalate "\n" (base ++ agentLines ++ auditPart)

/-- `ProcessingEngine._build_error_reasoning` (engine.py:421-438): the
f-string template, with the raw error text embedded after `Error: `. -/
def build_error_reasoning (ctx : OrchestrationContext) (e : String) : String :=
  "\nOrchestration Error Details:\nPattern: " ++ ctx.pattern_name ++
  "\nSession: " ++ ctx.session_id ++
  "\nError: " ++ e ++
  "\n\nCompleted Agents: " ++ pyStrListRepr (ctx.agent_durations.map (fun kv => kv.1)) ++
  "\nProcessing Durations: " ++
    ("\x7b" ++ String.intercalate ", "
      (ctx.agent_durations.map (fun kv => "'" ++ kv.1 ++ "': " ++ fmt2 kv.2)) ++ "\x7d") ++
  "\n\nAudit Trail:\n" ++ String.intercalate "\n" ctx.audit_trail ++
  "\n\nErrors:\n" ++ String.intercalate "\n" ctx.errors ++ "\n"

/-- `ProcessingEngine._generate_error_decision` (engine.py:367-385): the
degraded decision — manual review, zero confidence, the error text
truncated to 200 characters in the reason, the full error text inside the
reasoning, urgent review priority. -/
def generate_error_decision (ctx : OrchestrationContext) (e : String) : LoanDecision :=
  { application_id := ctx.application_id
    decision := .manual_review
    decision_reason := "Processing error: " ++ ofChars (e.data.take 200)
    confidence_score := 0
    approved_amount := none
    approved_rate := none
    approved_term_months := none
    decision_maker := ctx.pattern_name ++ "_orchestrator_error"
    review_priority := "urgent"
    reasoning := build_error_reasoning ctx e
    orchestration_pattern := ctx.pattern_name }

/-- `ProcessingEngine._generate_loan_decision` (engine.py:290-322); the
`Except` propagates the `AttributeError` that `_apply_decision_matrix` can
raise; pydantic coercion of a non-numeric confidence value is abstracted by
`toNum`, and the wall-clock `processing_duration_seconds` is external. -/
def generate_loan_decision (decision_matrix : List (String × DecisionRuleCfg))
    (ctx : OrchestrationContext) : Except String LoanDecision := do
  let r ← apply_decision_matrix decision_matrix ctx
  let risk_result := (getAgentResult ctx "risk").getD []
  .ok { application_id := ctx.application_id
        decision := r.1
        decision_reason := ofChars (r.2.data.take 500)
        confidence_score := ((dictFind "confidence_score" risk_result).bind toNum).getD (3 / 4)
        approved_amount :=
          if r.1 = .approved then dictFind "approved_amount" risk_result else none
        approved_rate :=
          if r.1 = .approved then dictFind "recommended_rate" risk_result else none
        approved_term_months :=
          if r.1 = .approved then dictFind "recommended_terms" risk_result else none
        decision_maker := ctx.pattern_name ++ "_orchestrator"
        review_priority := determine_priority risk_result
        reasoning := build_decision_reasoning ctx
        orchestration_pattern := ctx.pattern_name }

/-- Milestones of one `ProcessingEngine.execute_pattern` call, in source
order (engine.py:216, 219, 239, 250, 253, 275), recorded to make the
control flow of the engine observable in the theorems. -/
inductive EngineStep where
  | loadPattern
  | createContext
  | validateConfig
  | invokeExecutor
  | generateDecision
  | generateErrorDecision
deriving DecidableEq

/-- The context the engine constructs at engine.py:219-232: built
unconditionally after the pattern file is loaded and before the executor is
looked up or validated, with the opening audit entry. -/
def engineInitCtx (application_id session_id pattern_name : String)
    (context_overrides : PyDict) : OrchestrationContext :=
  add_audit_entry
    { application_id := application_id
      session_id := session_id
      pattern_name := pattern_name
      results := []
      audit_trail := []
      agent_durations := []
      errors := []
      contextMetadata := context_overrides }
    ("Started " ++ pattern_name ++ " orchestration for application " ++ application_id)

/-- The `except` block of engine.py:266-275: audit entry, error-list entry,
then the degraded decision. -/
def engineHandleFailure (ctx : OrchestrationContext) (e : String) : OrchestrationContext :=
  appendError (add_audit_entry ctx ("Orchestration failed: " ++ e)) e

/-- `ProcessingEngine.execute_pattern` (engine.py:181-275).  The executor
found for the pattern type is abstracted as a state transformer returning
the exception it raises, if any; `config_errors` is the list returned by
`executor.validate_config(pattern_config)` at engine.py:239.  The pattern
file is loaded, the context constructed, then inside the `try` block:
non-empty validation errors raise the `ValueError` of engine.py:241, the
executor runs, the decision matrix is applied; every exception raised in
the `try` block is converted into the degraded decision.  The first
component records the milestones reached. -/
def execute_pattern (application_id session_id pattern_name : String)
    (context_overrides : PyDict) (config_errors : List String)
    (executorRun : OrchestrationContext → OrchestrationContext × Option String)
    (decision_matrix : List (String × DecisionRuleCfg)) :
    List EngineStep × LoanDecision :=
  let ctx := engineInitCtx application_id session_id pattern_name context_overrides
  if !config_errors.isEmpty then
    let e := "Configuration errors: " ++ String.intercalate "; " config_errors
    let ctx1 := engineHandleFailure ctx e
    ([.loadPattern, .createContext, .validateConfig, .generateErrorDecision],
      generate_error_decision ctx1 e)
  else
    let r := executorRun ctx
    match r.2 with
    | some e =>
      ([.loadPattern, .createContext, .validateConfig, .invokeExecutor, .generateErrorDecision],
        generate_error_decision (engineHandleFailure r.1 e) e)
    | none =>
      match generate_loan_decision decision_matrix r.1 with
      | .ok d =>
        ([.loadPattern, .createContext, .validateConfig, .invokeExecutor, .generateDecision], d)
      | .error e =>
        ([.loadPattern, .createContext, .validateConfig, .invokeExecutor, .generateErrorDecision],
          generate_error_decision (engineHandleFailure r.1 e) e)

/-- Whether a modelled Python value is a string (the
`isinstance(condition, str)` test of safe_evaluator.py:51). -/
def isStrVal : PyVal → Bool
  | .strV _ => true
  | _ => false

/-- An empty context for a freshly started run, used as concrete input. -/
def exCtxEmpty : OrchestrationContext :=
  { application_id := "LN0000000001"
    session_id := "session-1"
    pattern_name := "sequential"
    results := []
    audit_trail := []
    agent_durations := []
    errors := []
    contextMetadata := [] }

/-- A context whose risk agent reported a score of 500. -/
def exCtxRisk : OrchestrationContext :=
  { exCtxEmpty with results := [("risk", [("score", PyVal.intV 500)])] }

/-- A context whose intake agent reported a score of 600. -/
def exCtxIntakeLow : OrchestrationContext :=
  { exCtxEmpty with results := [("intake", [("score", PyVal.intV 600)])] }

/-- A context whose intake result carries no score field. -/
def exCtxIntakeJunk : OrchestrationContext :=
  { exCtxEmpty with results := [("intake", [("status", PyVal.strV "ok")])] }

/-- A handoff rule gating on a score above 700. -/
def exRuleScore : HandoffRule :=
  { fromAgent := "intake", toAgent := "credit", conditions := ["score > 700"] }

/-- A failing branch stage: the external credit call errors out. -/
def exBranchCredit : BranchCfg :=
  { branch_name := "credit_branch"
    agents := [({ agentType := "credit" }, Except.error ("LLM unavailable", 2))] }

/-- A succeeding sibling branch stage. -/
def exBranchIncome : BranchCfg :=
  { branch_name := "income_branch"
    agents := [({ agentType := "income" }, Except.ok ([("ok", PyVal.boolV true)], 1))] }

/-- A succeeding synthesis stage. -/
def exSynthesis : List (AgentCfg × StageOutcome) :=
  [({ agentType := "risk" }, Except.ok ([], 1))]

/-- One list extends another by appending: nothing removed, order kept. -/
def ListExtends {α : Type} (old new : List α) : Prop :=
  ∃ t, new = old ++ t

/-- A context evolves monotonically: the audit trail and the error list of
the old context survive as prefixes, in order. -/
def CtxExtends (a b : OrchestrationContext) : Prop :=
  ListExtends a.audit_trail b.audit_trail ∧ ListExtends a.errors b.errors

theorem listExtends_refl {α : Type} (l : List α) : ListExtends l l :=
  ⟨[], by simp⟩

theorem listExtends_trans {α : Type} {a b c : List α}
    (h1 : ListExtends a b) (h2 : ListExtends b c) : ListExtends a c := by
  obtain ⟨t1, rfl⟩ := h1
  obtain ⟨t2, rfl⟩ := h2
  exact ⟨t1 ++ t2, by simp⟩

theorem ctxExtends_refl (ctx : OrchestrationContext) : CtxExtends ctx ctx :=
  ⟨listExtends_refl _, listExtends_refl _⟩

theorem ctxExtends_trans {a b c : OrchestrationContext}
    (h1 : CtxExtends a b) (h2 : CtxExtends b c) : CtxExtends a c :=
  ⟨listExtends_trans h1.1 h2.1, listExtends_trans h1.2 h2.2⟩

theorem ctxExtends_add_audit_entry (ctx : OrchestrationContext) (m : String) :
    CtxExtends ctx (add_audit_entry ctx m) :=
  ⟨⟨[m], rfl⟩, listExtends_refl _⟩

theorem ctxExtends_appendError (ctx : OrchestrationContext) (e : String) :
    CtxExtends ctx (appendError ctx e) :=
  ⟨listExtends_refl _, ⟨[e], rfl⟩⟩

theorem ctxExtends_set_agent_result (ctx : OrchestrationContext) (t : String)
    (r : PyDict) (d : Rat) : CtxExtends ctx (set_agent_result ctx t r d) :=
  ⟨⟨[titleCase t ++ " agent completed in " ++ fmt2 d ++ "s"], rfl⟩, listExtends_refl _⟩

theorem ctxExtends_recordAgentFailure (t e : String) (d : Rat) (ctx : OrchestrationContext) :
    CtxExtends ctx (recordAgentFailure t e d ctx).1 :=
  ctxExtends_trans (ctxExtends_add_audit_entry ctx _) (ctxExtends_appendError _ _)

theorem ctxExtends_execute_agent (cfg : AgentCfg) (o : StageOutcome)
    (ctx : OrchestrationContext) : CtxExtends ctx (execute_agent cfg o ctx).1 := by
  cases o with
  | error p =>
    obtain ⟨e, d⟩ := p
    simp only [execute_agent, notify_agent_start]
    exact ctxExtends_trans (ctxExtends_add_audit_entry ctx _)
      (ctxExtends_recordAgentFailure _ _ _ _)
  | ok p =>
    obtain ⟨res, d⟩ := p
    simp only [execute_agent, notify_agent_start, notify_agent_thinking]
    by_cases h : validate_success_conditions cfg.success_conditions res = true
    · simp only [h, if_true]
      exact ctxExtends_trans (ctxExtends_add_audit_entry ctx _)
        (ctxExtends_trans (ctxExtends_add_audit_entry _ _)
          (ctxExtends_trans (ctxExtends_add_audit_entry _ _)
            (ctxExtends_trans (ctxExtends_add_audit_entry _ _)
              (ctxExtends_set_agent_result _ _ _ _))))
    · simp only [Bool.not_eq_true] at h
      simp only [h, Bool.false_eq_true, if_false]
      exact ctxExtends_trans (ctxExtends_add_audit_entry ctx _)
        (ctxExtends_trans (ctxExtends_add_audit_entry _ _)
          (ctxExtends_trans (ctxExtends_add_audit_entry _ _)
            (ctxExtends_trans (ctxExtends_add_audit_entry _ _)
              (ctxExtends_trans (ctxExtends_set_agent_result _ _ _ _)
                (ctxExtends_recordAgentFailure _ _ _ _)))))

theorem ctxExtends_seqLoop (hr : List (String × HandoffRule))
    (stages : List (AgentCfg × StageOutcome)) :
    ∀ (prev : Option String) (ctx : OrchestrationContext),
      CtxExtends ctx (seqLoop hr prev stages ctx).1 := by
  induction stages with
  | nil =>
    intro prev ctx
    exact ctxExtends_add_audit_entry ctx _
  | cons head rest ih =>
    intro prev ctx
    obtain ⟨cfg, o⟩ := head
    simp only [seqLoop]
    by_cases hg : seqGate hr prev ctx = true
    · simp only [hg, Bool.not_true, Bool.false_eq_true, if_false]
      rcases he : execute_agent cfg o (add_audit_entry ctx ("Executing agent: " ++ cfg.agentType)) with ⟨ctx1, exc⟩
      have h2 : CtxExtends ctx ctx1 := by
        have h := ctxExtends_execute_agent cfg o (add_audit_entry ctx ("Executing agent: " ++ cfg.agentType))
        rw [he] at h
        exact ctxExtends_trans (ctxExtends_add_audit_entry ctx _) h
      cases exc with
      | some e => exact h2
      | none =>
        exact ctxExtends_trans h2 (ctxExtends_trans (ctxExtends_add_audit_entry ctx1 _)
          (ih (some cfg.agentType) (add_audit_entry ctx1 ("Completed agent: " ++ cfg.agentType))))
    · simp only [Bool.not_eq_true] at hg
      simp only [hg, Bool.not_false, if_true]
      exact ctxExtends_trans (ctxExtends_add_audit_entry ctx _) (ctxExtends_add_audit_entry _ _)

theorem ctxExtends_sequentialExecute (hr : List (String × HandoffRule))
    (stages : List (AgentCfg × StageOutcome)) (ctx : OrchestrationContext) :
    CtxExtends ctx (sequentialExecute hr stages ctx).1 :=
  ctxExtends_trans (ctxExtends_add_audit_entry ctx _) (ctxExtends_seqLoop hr stages none _)

theorem ctxExtends_handle_branch_failure (t bn e : String) (ctx : OrchestrationContext) :
    CtxExtends ctx (handle_branch_failure t bn e ctx) :=
  ctxExtends_trans (ctxExtends_add_audit_entry ctx _) (ctxExtends_appendError _ _)

theorem ctxExtends_execute_branch_agent (cfg : AgentCfg) (o : StageOutcome)
    (bn : String) (ctx : OrchestrationContext) :
    CtxExtends ctx (execute_branch_agent cfg o bn ctx) := by
  simp only [execute_branch_agent]
  rcases hd : firstMissingDep cfg.depends_on (add_audit_entry ctx ("Executing " ++ cfg.agentType ++ " in branch: " ++ bn)) with _ | d
  · rcases he : execute_agent cfg o (add_audit_entry ctx ("Executing " ++ cfg.agentType ++ " in branch: " ++ bn)) with ⟨ctx1, exc⟩
    have h2 : CtxExtends ctx ctx1 := by
      have h := ctxExtends_execute_agent cfg o (add_audit_entry ctx ("Executing " ++ cfg.agentType ++ " in branch: " ++ bn))
      rw [he] at h
      exact ctxExtends_trans (ctxExtends_add_audit_entry ctx _) h
    cases exc with
    | none => exact ctxExtends_trans h2 (ctxExtends_add_audit_entry _ _)
    | some e =>
      exact ctxExtends_trans h2 (ctxExtends_trans (ctxExtends_add_audit_entry _ _)
        (ctxExtends_handle_branch_failure _ _ _ _))
  · exact ctxExtends_trans (ctxExtends_add_audit_entry ctx _)
      (ctxExtends_trans (ctxExtends_add_audit_entry _ _)
        (ctxExtends_handle_branch_failure _ _ _ _))

theorem ctxExtends_branchTaskLoop (tasks : List (String × AgentCfg × StageOutcome)) :
    ∀ ctx : OrchestrationContext, CtxExtends ctx (branchTaskLoop tasks ctx).1 := by
  induction tasks with
  | nil => intro ctx; exact ctxExtends_refl ctx
  | cons head rest ih =>
    intro ctx
    obtain ⟨bn, cfg, o⟩ := head
    simp only [branchTaskLoop]
    rcases hl : branchTaskLoop rest (execute_branch_agent cfg o bn ctx) with ⟨ctx2, attempted⟩
    have h2 := ih (execute_branch_agent cfg o bn ctx)
    rw [hl] at h2
    exact ctxExtends_trans (ctxExtends_execute_branch_agent cfg o bn ctx) h2

theorem ctxExtends_foldl_audit (branches : List BranchCfg) :
    ∀ ctx : OrchestrationContext,
      CtxExtends ctx (branches.foldl
        (fun c b => add_audit_entry c ("Creating task for branch: " ++ b.branch_name)) ctx) := by
  induction branches with
  | nil => intro ctx; exact ctxExtends_refl ctx
  | cons b rest ih =>
    intro ctx
    simp only [List.foldl_cons]
    exact ctxExtends_trans (ctxExtends_add_audit_entry ctx _) (ih _)

theorem ctxExtends_execute_parallel_branches (branches : List BranchCfg)
    (ctx : OrchestrationContext) : CtxExtends ctx (execute_parallel_branches branches ctx).1 := by
  simp only [execute_parallel_branches]
  by_cases h : (branchTasks branches).isEmpty = true
  · simp only [h, if_true]
    exact ctxExtends_trans (ctxExtends_add_audit_entry ctx _) (ctxExtends_foldl_audit branches _)
  · simp only [Bool.not_eq_true] at h
    simp only [h, Bool.false_eq_true, if_false]
    rcases hl : branchTaskLoop (branchTasks branches) (add_audit_entry ((branches.foldl (fun c b => add_audit_entry c ("Creating task for branch: " ++ b.branch_name)) (add_audit_entry ctx ("Starting " ++ toString branches.length ++ " parallel branches")))) ("Executing " ++ toString (branchTasks branches).length ++ " branch agents concurrently")) with ⟨ctx1, attempted⟩
    have h2 := ctxExtends_branchTaskLoop (branchTasks branches) (add_audit_entry ((branches.foldl (fun c b => add_audit_entry c ("Creating task for branch: " ++ b.branch_name)) (add_audit_entry ctx ("Starting " ++ toString branches.length ++ " parallel branches")))) ("Executing " ++ toString (branchTasks branches).length ++ " branch agents concurrently"))
    rw [hl] at h2
    exact ctxExtends_trans (ctxExtends_add_audit_entry ctx _)
      (ctxExtends_trans (ctxExtends_foldl_audit branches _)
        (ctxExtends_trans (ctxExtends_add_audit_entry _ _)
          (ctxExtends_trans h2 (ctxExtends_add_audit_entry ctx1 _))))

theorem ctxExtends_synthDepWarnings (cfg : AgentCfg) (ctx : OrchestrationContext) :
    CtxExtends ctx (synthDepWarnings cfg ctx) := by
  simp only [synthDepWarnings]
  induction cfg.depends_on generalizing ctx with
  | nil => exact ctxExtends_refl ctx
  | cons d rest ih =>
    simp only [List.foldl_cons]
    by_cases h : (getAgentResult ctx d).isNone = true
    · simp only [h, if_true]
      exact ctxExtends_trans (ctxExtends_add_audit_entry ctx _) (ih _)
    · simp only [Bool.not_eq_true] at h
      simp only [h, Bool.false_eq_true, if_false]
      exact ih ctx

theorem ctxExtends_synthLoop (stages : List (AgentCfg × StageOutcome)) :
    ∀ ctx : OrchestrationContext, CtxExtends ctx (synthLoop stages ctx).1 := by
  induction stages with
  | nil => intro ctx; exact ctxExtends_refl ctx
  | cons head rest ih =>
    intro ctx
    obtain ⟨cfg, o⟩ := head
    simp only [synthLoop]
    rcases he : execute_agent cfg o (add_audit_entry (synthDepWarnings cfg ctx) ("Executing synthesis agent: " ++ cfg.agentType)) with ⟨ctx1, exc⟩
    have h2 : CtxExtends ctx ctx1 := by
      have h := ctxExtends_execute_agent cfg o (add_audit_entry (synthDepWarnings cfg ctx) ("Executing synthesis agent: " ++ cfg.agentType))
      rw [he] at h
      exact ctxExtends_trans (ctxExtends_synthDepWarnings cfg ctx)
        (ctxExtends_trans (ctxExtends_add_audit_entry _ _) h)
    cases exc with
    | some e => exact h2
    | none =>
      exact ctxExtends_trans h2 (ctxExtends_trans (ctxExtends_add_audit_entry ctx1 _)
        (ih (add_audit_entry ctx1 ("Completed synthesis agent: " ++ cfg.agentType))))

theorem ctxExtends_initLoop (stages : List (AgentCfg × StageOutcome)) :
    ∀ ctx : OrchestrationContext, CtxExtends ctx (initLoop stages ctx).1 := by
  induction stages with
  | nil => intro ctx; exact ctxExtends_refl ctx
  | cons head rest ih =>
    intro ctx
    obtain ⟨cfg, o⟩ := head
    simp only [initLoop]
    rcases he : execute_agent cfg o (add_audit_entry ctx ("Executing initial agent: " ++ cfg.agentType)) with ⟨ctx1, exc⟩
    have h2 : CtxExtends ctx ctx1 := by
      have h := ctxExtends_execute_agent cfg o (add_audit_entry ctx ("Executing initial agent: " ++ cfg.agentType))
      rw [he] at h
      exact ctxExtends_trans (ctxExtends_add_audit_entry ctx _) h
    cases exc with
    | some e => exact h2
    | none =>
      exact ctxExtends_trans h2 (ctxExtends_trans (ctxExtends_add_audit_entry ctx1 _)
        (ih (add_audit_entry ctx1 ("Completed initial agent: " ++ cfg.agentType))))

theorem ctxExtends_execute_synthesis_agents (synthesis : List (AgentCfg × StageOutcome))
    (ctx : OrchestrationContext) : CtxExtends ctx (execute_synthesis_agents synthesis ctx).1 := by
  simp only [execute_synthesis_agents]
  by_cases hs : synthesis.isEmpty = true
  · simp only [hs, if_true]
    exact ctxExtends_refl ctx
  · simp only [Bool.not_eq_true] at hs
    simp only [hs, Bool.false_eq_true, if_false]
    exact ctxExtends_trans (ctxExtends_add_audit_entry ctx _) (ctxExtends_synthLoop synthesis _)

theorem ctxExtends_parallelBranchPhase (branches : Option (List BranchCfg))
    (ctx : OrchestrationContext) : CtxExtends ctx (parallelBranchPhase branches ctx).1 := by
  cases branches with
  | some bs => exact ctxExtends_execute_parallel_branches bs ctx
  | none => exact ctxExtends_refl ctx

theorem ctxExtends_parallelTail (branches : Option (List BranchCfg))
    (synthesis : List (AgentCfg × StageOutcome)) (ctx1 : OrchestrationContext) :
    CtxExtends ctx1 (parallelTail branches synthesis ctx1).1 := by
  simp only [parallelTail]
  rcases hb : parallelBranchPhase branches ctx1 with ⟨ctx2, battempted⟩
  have h2 : CtxExtends ctx1 ctx2 := by
    have h := ctxExtends_parallelBranchPhase branches ctx1
    rw [hb] at h
    exact h
  rcases hy : execute_synthesis_agents synthesis ctx2 with ⟨ctx3, sattempted, exc2⟩
  have hsy := ctxExtends_execute_synthesis_agents synthesis ctx2
  rw [hy] at hsy
  cases exc2 with
  | some e => exact ctxExtends_trans h2 hsy
  | none => exact ctxExtends_trans h2 (ctxExtends_trans hsy (ctxExtends_add_audit_entry _ _))

theorem ctxExtends_parallelExecute (initial : List (AgentCfg × StageOutcome))
    (branches : Option (List BranchCfg)) (synthesis : List (AgentCfg × StageOutcome))
    (ctx : OrchestrationContext) :
    CtxExtends ctx (parallelExecute initial branches synthesis ctx).1 := by
  simp only [parallelExecute]
  rcases hi : initLoop initial (add_audit_entry (add_audit_entry ctx "Starting parallel orchestration execution") ("Executing " ++ toString initial.length ++ " initial agents")) with ⟨ctx1, exc⟩
  have h1 : CtxExtends ctx ctx1 := by
    have h := ctxExtends_initLoop initial (add_audit_entry (add_audit_entry ctx "Starting parallel orchestration execution") ("Executing " ++ toString initial.length ++ " initial agents"))
    rw [hi] at h
    exact ctxExtends_trans (ctxExtends_add_audit_entry ctx _)
      (ctxExtends_trans (ctxExtends_add_audit_entry _ _) h)
  cases exc with
  | some e => exact h1
  | none => exact ctxExtends_trans h1 (ctxExtends_parallelTail branches synthesis ctx1)

theorem beginsWith_refl_append (p t : List Char) : beginsWith p (p ++ t) = true := by
  induction p with
  | nil => rfl
  | cons c rest ih => simp [beginsWith, ih]

theorem containsSub_of_begins (p t : List Char) (h : beginsWith p t = true) :
    containsSub p t = true := by
  cases t with
  | nil => simpa [containsSub] using h
  | cons b bs => simp [containsSub, h]

theorem containsSub_append_head (p x t : List Char) (h : containsSub p t = true) :
    containsSub p (x ++ t) = true := by
  induction x with
  | nil => simpa using h
  | cons c rest ih => simp [containsSub, ih]

theorem listAll_false_of_mem {α : Type} (p : α → Bool) (l : List α) (x : α)
    (hx : x ∈ l) (hp : p x = false) : l.all p = false := by
  induction l with
  | nil => cases hx
  | cons y rest ih =>
    rcases List.mem_cons.mp hx with h | h
    · subst h
      simp [List.all_cons, hp]
    · simp [List.all_cons, ih h]

theorem trimChars_all_space (l : List Char) (h : l.all isSpaceChar = true) :
    trimChars l = [] := by
  have h1 : trimLeft l = [] := by
    simp only [trimLeft, List.dropWhile_eq_nil_iff]
    intro x hx
    exact List.all_eq_true.mp h x hx
  simp [trimChars, h1]

theorem statusMapEntries_eq :
    statusMapEntries =
      .error "type object 'LoanDecisionStatus' has no attribute 'CONDITIONAL_APPROVAL'" := by
  rfl

theorem execute_agent_exc (cfg : AgentCfg) (o : StageOutcome) (ctx : OrchestrationContext)
    (h : stageSucceeds cfg o = true) : (execute_agent cfg o ctx).2 = none := by
  cases o with
  | error p => simp [stageSucceeds] at h
  | ok p =>
    obtain ⟨res, d⟩ := p
    simp only [stageSucceeds] at h
    simp [execute_agent, h]

theorem branchTaskLoop_attempted (tasks : List (String × AgentCfg × StageOutcome)) :
    ∀ ctx : OrchestrationContext,
      (branchTaskLoop tasks ctx).2 = tasks.map (fun t => t.2.1.agentType) := by
  induction tasks with
  | nil => intro ctx; rfl
  | cons head rest ih =>
    intro ctx
    obtain ⟨bn, cfg, o⟩ := head
    simp only [branchTaskLoop, List.map_cons]
    rw [ih (execute_branch_agent cfg o bn ctx)]

theorem execute_parallel_branches_attempted (branches : List BranchCfg)
    (ctx : OrchestrationContext) :
    (execute_parallel_branches branches ctx).2 =
      (branchTasks branches).map (fun t => t.2.1.agentType) := by
  simp only [execute_parallel_branches]
  by_cases h : (branchTasks branches).isEmpty = true
  · have h0 : branchTasks branches = [] := by
      cases hb : branchTasks branches with
      | nil => rfl
      | cons a l => rw [hb] at h; simp [List.isEmpty] at h
    simp [h, h0]
  · simp only [Bool.not_eq_true] at h
    simp only [h, Bool.false_eq_true, if_false]
    exact branchTaskLoop_attempted (branchTasks branches) _

theorem initLoop_ok (stages : List (AgentCfg × StageOutcome)) :
    ∀ ctx : OrchestrationContext,
      (∀ x ∈ stages, stageSucceeds x.1 x.2 = true) →
      (initLoop stages ctx).2 = none := by
  induction stages with
  | nil => intro ctx _; rfl
  | cons head rest ih =>
    intro ctx h
    obtain ⟨cfg, o⟩ := head
    have hs : stageSucceeds cfg o = true := h (cfg, o) (List.mem_cons_self _ _)
    simp only [initLoop]
    rcases hx : (execute_agent cfg o (add_audit_entry ctx ("Executing initial agent: " ++ cfg.agentType))).2 with _ | e
    · exact ih _ (fun x hx2 => h x (List.mem_cons_of_mem _ hx2))
    · have h2 := execute_agent_exc cfg o
        (add_audit_entry ctx ("Executing initial agent: " ++ cfg.agentType)) hs
      rw [hx] at h2
      cases h2

theorem synthLoop_ok (stages : List (AgentCfg × StageOutcome)) :
    ∀ ctx : OrchestrationContext,
      (∀ x ∈ stages, stageSucceeds x.1 x.2 = true) →
      (synthLoop stages ctx).2.1 = stages.map (fun x => x.1.agentType)
      ∧ (synthLoop stages ctx).2.2 = none := by
  induction stages with
  | nil => intro ctx _; exact ⟨rfl, rfl⟩
  | cons head rest ih =>
    intro ctx h
    obtain ⟨cfg, o⟩ := head
    have hs : stageSucceeds cfg o = true := h (cfg, o) (List.mem_cons_self _ _)
    simp only [synthLoop, List.map_cons]
    rcases hx : (execute_agent cfg o (add_audit_entry (synthDepWarnings cfg ctx)
        ("Executing synthesis agent: " ++ cfg.agentType))).2 with _ | e
    · have hrest := ih
        (add_audit_entry (execute_agent cfg o (add_audit_entry (synthDepWarnings cfg ctx)
          ("Executing synthesis agent: " ++ cfg.agentType))).1
          ("Completed synthesis agent: " ++ cfg.agentType))
        (fun x hx2 => h x (List.mem_cons_of_mem _ hx2))
      exact ⟨by rw [hrest.1], hrest.2⟩
    · have h2 := execute_agent_exc cfg o (add_audit_entry (synthDepWarnings cfg ctx)
        ("Executing synthesis agent: " ++ cfg.agentType)) hs
      rw [hx] at h2
      cases h2

theorem execute_synthesis_agents_ok (stages : List (AgentCfg × StageOutcome))
    (ctx : OrchestrationContext)
    (h : ∀ x ∈ stages, stageSucceeds x.1 x.2 = true) :
    (execute_synthesis_agents stages ctx).2.1 = stages.map (fun x => x.1.agentType)
    ∧ (execute_synthesis_agents stages ctx).2.2 = none := by
  simp only [execute_synthesis_agents]
  by_cases hs : stages.isEmpty = true
  · have h0 : stages = [] := by
      cases hb : stages with
      | nil => rfl
      | cons a l => rw [hb] at hs; simp [List.isEmpty] at hs
    simp [hs, h0]
  · simp only [Bool.not_eq_true] at hs
    simp only [hs, Bool.false_eq_true, if_false]
    exact synthLoop_ok stages _ h

/-- C4: `HandoffChecker.check_handoff_conditions` returns `true` when no
rule exists for the completed stage; returns `false` (it is a total
`Bool`-valued function, so it cannot raise) when the completed stage has no
recorded (truthy) result in the context; and when a condition's evaluation
raises a `ConditionError`, the overall check is `false` (fail-closed), not
a propagated exception. -/
theorem handoff_check_fail_closed :
    (∀ (rules : List (String × HandoffRule)) (from_agent : String) (ctx : OrchestrationContext),
        assocFind from_agent rules = none →
        check_handoff_conditions rules from_agent ctx = true)
  ∧ (∀ (rules : List (String × HandoffRule)) (from_agent : String)
        (ctx : OrchestrationContext) (rule : HandoffRule),
        assocFind from_agent rules = some rule →
        truthyResult (getAgentResult ctx from_agent) = false →
        check_handoff_conditions rules from_agent ctx = false)
  ∧ (∀ (rules : List (String × HandoffRule)) (from_agent : String)
        (ctx : OrchestrationContext) (rule : HandoffRule) (c e : String),
        assocFind from_agent rules = some rule →
        c ∈ rule.conditions →
        evaluate_condition c ((getAgentResult ctx from_agent).getD []) = .error e →
        check_handoff_conditions rules from_agent ctx = false) := by
  refine ⟨?_, ?_, ?_⟩
  · intro rules fa ctx h
    simp [check_handoff_conditions, h]
  · intro rules fa ctx rule h ht
    simp [check_handoff_conditions, h, ht]
  · intro rules fa ctx rule c e h hc he
    simp only [check_handoff_conditions, h]
    by_cases ht : truthyResult (getAgentResult ctx fa) = true
    · simp only [ht, Bool.not_true, Bool.false_eq_true, if_false]
      have hfalse : evalCondBool c ((getAgentResult ctx fa).getD []) = false := by
        simp [evalCondBool, he]
      exact listAll_false_of_mem _ _ _ hc hfalse
    · simp only [Bool.not_eq_true] at ht
      simp [ht]

/-- Witness for C4 at concrete inputs: no rule, a rule against a stage with
no recorded result, and a rule whose condition references a field the
upstream result lacks (the evaluator raises, the check is `false`). -/
theorem handoff_check_fail_closed_witness :
    check_handoff_conditions [] "intake" exCtxEmpty = true
  ∧ check_handoff_conditions [("intake", exRuleScore)] "intake" exCtxEmpty = false
  ∧ check_handoff_conditions [("intake", exRuleScore)] "intake" exCtxIntakeJunk = false :=
  ⟨handoff_check_fail_closed.1 [] "intake" exCtxEmpty rfl,
   handoff_check_fail_closed.2.1 [("intake", exRuleScore)] "intake" exCtxEmpty exRuleScore rfl rfl,
   handoff_check_fail_closed.2.2 [("intake", exRuleScore)] "intake" exCtxIntakeJunk exRuleScore
     "score > 700" "Field 'score' not found in context" rfl (by decide) rfl⟩

/-- C9: `evaluate_condition` returns `false` — it does not raise — for the
empty string, a whitespace-only string, and any non-string value
(safe_evaluator.py:51-54, 70-72). -/
theorem evaluator_blank_or_nonstring_false :
    ∀ context : PyDict,
      (evaluate_condition_any (.strV "") context = .ok false)
    ∧ (∀ s : String, s.data.all isSpaceChar = true →
        evaluate_condition_any (.strV s) context = .ok false)
    ∧ (∀ v : PyVal, isStrVal v = false → evaluate_condition_any v context = .ok false) := by
  intro context
  refine ⟨rfl, ?_, ?_⟩
  · intro s hs
    simp only [evaluate_condition_any, evaluate_condition]
    by_cases h0 : s.data.isEmpty = true
    · simp [h0]
    · simp only [Bool.not_eq_true] at h0
      have ht : trimChars s.data = [] := trimChars_all_space s.data hs
      simp [h0, ht, containsSub, beginsWith, andSep, orSep, evaluate_simple_condition]
  · intro v hv
    cases v <;> simp_all [evaluate_condition_any, isStrVal]

/-- Witness for C9: the empty string, a whitespace-only string, and an
integer in place of the expression. -/
theorem evaluator_blank_or_nonstring_false_witness :
    evaluate_condition_any (.strV "") [] = .ok false
  ∧ evaluate_condition_any (.strV "   ") [("score", PyVal.intV 1)] = .ok false
  ∧ evaluate_condition_any (.intV 7) [] = .ok false :=
  ⟨(evaluator_blank_or_nonstring_false []).1,
   (evaluator_blank_or_nonstring_false [("score", PyVal.intV 1)]).2.1 "   " (by decide),
   (evaluator_blank_or_nonstring_false []).2.2 (.intV 7) rfl⟩

/-- C7 counterexample: with `score = 3`, the compound
`"score > 5 and garbage"` evaluates to `False` without raising, because the
generator-driven `all(...)` of safe_evaluator.py:59 stops at the first
false part and never evaluates the malformed `"garbage"`; the claim says a
`ConditionError` must be raised here. -/
theorem compound_and_no_error_on_early_false :
    evaluate_condition "score > 5 and garbage" [("score", PyVal.intV 3)] = .ok false := by
  rfl

theorem evalAllParts_append_of_true (context : PyDict) (pre l : List (List Char))
    (h : ∀ x ∈ pre, evaluate_simple_condition (trimChars x) context = .ok true) :
    evalAllParts context (pre ++ l) = evalAllParts context l := by
  induction pre with
  | nil => rfl
  | cons x rest ih =>
    have hx := h x (List.mem_cons_self _ _)
    simp only [List.cons_append, evalAllParts, hx]
    exact ih (fun y hy => h y (List.mem_cons_of_mem _ hy))

theorem evalAnyParts_append_of_false (context : PyDict) (pre l : List (List Char))
    (h : ∀ x ∈ pre, evaluate_simple_condition (trimChars x) context = .ok false) :
    evalAnyParts context (pre ++ l) = evalAnyParts context l := by
  induction pre with
  | nil => rfl
  | cons x rest ih =>
    have hx := h x (List.mem_cons_self _ _)
    simp only [List.cons_append, evalAnyParts, hx]
    exact ih (fun y hy => h y (List.mem_cons_of_mem _ hy))

theorem evalAllParts_error_split (context : PyDict) (parts : List (List Char)) (m : String) :
    evalAllParts context parts = .error m →
    ∃ pre p rest, parts = pre ++ p :: rest
      ∧ (∀ x ∈ pre, evaluate_simple_condition (trimChars x) context = .ok true)
      ∧ evaluate_simple_condition (trimChars p) context = .error m := by
  induction parts with
  | nil =>
    intro h
    simp [evalAllParts] at h
  | cons p rest ih =>
    intro h
    rcases hx : evaluate_simple_condition (trimChars p) context with e | b
    · simp only [evalAllParts, hx] at h
      injection h with h1
      subst h1
      refine ⟨[], p, rest, rfl, ?_, hx⟩
      intro x hx2
      cases hx2
    · cases b
      · simp only [evalAllParts, hx] at h
        simp at h
      · simp only [evalAllParts, hx] at h
        rcases ih h with ⟨pre, q, rest2, heq, hpre, hq⟩
        refine ⟨p :: pre, q, rest2, by rw [heq, List.cons_append], ?_, hq⟩
        intro x hx2
        rcases List.mem_cons.mp hx2 with h1 | h1
        · subst h1; exact hx
        · exact hpre x h1

theorem evalAnyParts_error_split (context : PyDict) (parts : List (List Char)) (m : String) :
    evalAnyParts context parts = .error m →
    ∃ pre p rest, parts = pre ++ p :: rest
      ∧ (∀ x ∈ pre, evaluate_simple_condition (trimChars x) context = .ok false)
      ∧ evaluate_simple_condition (trimChars p) context = .error m := by
  induction parts with
  | nil =>
    intro h
    simp [evalAnyParts] at h
  | cons p rest ih =>
    intro h
    rcases hx : evaluate_simple_condition (trimChars p) context with e | b
    · simp only [evalAnyParts, hx] at h
      injection h with h1
      subst h1
      refine ⟨[], p, rest, rfl, ?_, hx⟩
      intro x hx2
      cases hx2
    · cases b
      · simp only [evalAnyParts, hx] at h
        rcases ih h with ⟨pre, q, rest2, heq, hpre, hq⟩
        refine ⟨p :: pre, q, rest2, by rw [heq, List.cons_append], ?_, hq⟩
        intro x hx2
        rcases List.mem_cons.mp hx2 with h1 | h1
        · subst h1; exact hx
        · exact hpre x h1
      · simp only [evalAnyParts, hx] at h
        simp at h

/-- C7 amended: `' and '` and `' or '` compounds of any arity are evaluated
left to right with short-circuiting (Python `all`/`any` over a generator):
an `' and '` compound stops at the first false part and an `' or '`
compound at the first true part, skipping every later part — malformed or
not — so no `ConditionError` arises from the skipped parts; and a malformed
part raises `ConditionError` exactly when every part before it kept
evaluation going (evaluated true under `' and '`, false under `' or '`):
the forward parts raise the error whenever the whole prefix kept going, and
the converse parts show any surfaced error comes from such a part. -/
theorem compound_connectives_shortcircuit :
    (∀ (s : String) (context : PyDict) (pre : List (List Char)) (p : List Char)
        (rest : List (List Char)),
        s.data.isEmpty = false →
        containsSub andSep (trimChars s.data) = true →
        splitOnSep andSep (trimChars s.data) = pre ++ p :: rest →
        (∀ x ∈ pre, evaluate_simple_condition (trimChars x) context = .ok true) →
        evaluate_simple_condition (trimChars p) context = .ok false →
        evaluate_condition s context = .ok false)
  ∧ (∀ (s : String) (context : PyDict) (pre : List (List Char)) (p : List Char)
        (rest : List (List Char)) (m : String),
        s.data.isEmpty = false →
        containsSub andSep (trimChars s.data) = true →
        splitOnSep andSep (trimChars s.data) = pre ++ p :: rest →
        (∀ x ∈ pre, evaluate_simple_condition (trimChars x) context = .ok true) →
        evaluate_simple_condition (trimChars p) context = .error m →
        evaluate_condition s context = .error m)
  ∧ (∀ (s : String) (context : PyDict) (m : String),
        s.data.isEmpty = false →
        containsSub andSep (trimChars s.data) = true →
        evaluate_condition s context = .error m →
        ∃ pre p rest, splitOnSep andSep (trimChars s.data) = pre ++ p :: rest
          ∧ (∀ x ∈ pre, evaluate_simple_condition (trimChars x) context = .ok true)
          ∧ evaluate_simple_condition (trimChars p) context = .error m)
  ∧ (∀ (s : String) (context : PyDict) (pre : List (List Char)) (p : List Char)
        (rest : List (List Char)),
        s.data.isEmpty = false →
        containsSub andSep (trimChars s.data) = false →
        containsSub orSep (trimChars s.data) = true →
        splitOnSep orSep (trimChars s.data) = pre ++ p :: rest →
        (∀ x ∈ pre, evaluate_simple_condition (trimChars x) context = .ok false) →
        evaluate_simple_condition (trimChars p) context = .ok true →
        evaluate_condition s context = .ok true)
  ∧ (∀ (s : String) (context : PyDict) (pre : List (List Char)) (p : List Char)
        (rest : List (List Char)) (m : String),
        s.data.isEmpty = false →
        containsSub andSep (trimChars s.data) = false →
        containsSub orSep (trimChars s.data) = true →
        splitOnSep orSep (trimChars s.data) = pre ++ p :: rest →
        (∀ x ∈ pre, evaluate_simple_condition (trimChars x) context = .ok false) →
        evaluate_simple_condition (trimChars p) context = .error m →
        evaluate_condition s context = .error m)
  ∧ (∀ (s : String) (context : PyDict) (m : String),
        s.data.isEmpty = false →
        containsSub andSep (trimChars s.data) = false →
        containsSub orSep (trimChars s.data) = true →
        evaluate_condition s context = .error m →
        ∃ pre p rest, splitOnSep orSep (trimChars s.data) = pre ++ p :: rest
          ∧ (∀ x ∈ pre, evaluate_simple_condition (trimChars x) context = .ok false)
          ∧ evaluate_simple_condition (trimChars p) context = .error m) := by
  refine ⟨?_, ?_, ?_, ?_, ?_, ?_⟩
  · intro s context pre p rest h0 hand hsplit hpre hp
    simp only [evaluate_condition, h0, Bool.false_eq_true, if_false, hand, if_true, hsplit]
    rw [evalAllParts_append_of_true context pre (p :: rest) hpre]
    simp [evalAllParts, hp]
  · intro s context pre p rest m h0 hand hsplit hpre hp
    simp only [evaluate_condition, h0, Bool.false_eq_true, if_false, hand, if_true, hsplit]
    rw [evalAllParts_append_of_true context pre (p :: rest) hpre]
    simp [evalAllParts, hp]
  · intro s context m h0 hand herr
    refine evalAllParts_error_split context _ m ?_
    simpa [evaluate_condition, h0, hand] using herr
  · intro s context pre p rest h0 hnand hor hsplit hpre hp
    simp only [evaluate_condition, h0, hnand, Bool.false_eq_true, if_false, hor, if_true, hsplit]
    rw [evalAnyParts_append_of_false context pre (p :: rest) hpre]
    simp [evalAnyParts, hp]
  · intro s context pre p rest m h0 hnand hor hsplit hpre hp
    simp only [evaluate_condition, h0, hnand, Bool.false_eq_true, if_false, hor, if_true, hsplit]
    rw [evalAnyParts_append_of_false context pre (p :: rest) hpre]
    simp [evalAnyParts, hp]
  · intro s context m h0 hnand hor herr
    refine evalAnyParts_error_split context _ m ?_
    simpa [evaluate_condition, h0, hnand, hor] using herr

/-- Witness for the amended C7 on three-part compounds over
`score = 3`: an `' and '` compound whose second part is false skips the
trailing malformed part; with a true prefix the malformed middle part
raises; the surfaced error is traced back to that part; and the three
`' or '` duals. -/
theorem compound_connectives_shortcircuit_witness :
    evaluate_condition "score > 1 and score > 5 and garbage" [("score", PyVal.intV 3)] =
      .ok false
  ∧ evaluate_condition "score > 1 and garbage and score < 9" [("score", PyVal.intV 3)] =
      .error "Invalid condition format: garbage"
  ∧ (∃ pre p rest,
      splitOnSep andSep (trimChars "score > 1 and garbage and score < 9".data) =
        pre ++ p :: rest
      ∧ (∀ x ∈ pre,
          evaluate_simple_condition (trimChars x) [("score", PyVal.intV 3)] = .ok true)
      ∧ evaluate_simple_condition (trimChars p) [("score", PyVal.intV 3)] =
          .error "Invalid condition format: garbage")
  ∧ evaluate_condition "score > 5 or score > 1 or garbage" [("score", PyVal.intV 3)] =
      .ok true
  ∧ evaluate_condition "score > 5 or garbage or score > 1" [("score", PyVal.intV 3)] =
      .error "Invalid condition format: garbage"
  ∧ (∃ pre p rest,
      splitOnSep orSep (trimChars "score > 5 or garbage or score > 1".data) =
        pre ++ p :: rest
      ∧ (∀ x ∈ pre,
          evaluate_simple_condition (trimChars x) [("score", PyVal.intV 3)] = .ok false)
      ∧ evaluate_simple_condition (trimChars p) [("score", PyVal.intV 3)] =
          .error "Invalid condition format: garbage") :=
  ⟨compound_connectives_shortcircuit.1 "score > 1 and score > 5 and garbage"
      [("score", PyVal.intV 3)] ["score > 1".data] "score > 5".data ["garbage".data]
      rfl rfl rfl
      (by intro x hx; rw [List.mem_singleton] at hx; subst hx; rfl) rfl,
   compound_connectives_shortcircuit.2.1 "score > 1 and garbage and score < 9"
      [("score", PyVal.intV 3)] ["score > 1".data] "garbage".data ["score < 9".data]
      "Invalid condition format: garbage" rfl rfl rfl
      (by intro x hx; rw [List.mem_singleton] at hx; subst hx; rfl) rfl,
   compound_connectives_shortcircuit.2.2.1 "score > 1 and garbage and score < 9"
      [("score", PyVal.intV 3)] "Invalid condition format: garbage" rfl rfl rfl,
   compound_connectives_shortcircuit.2.2.2.1 "score > 5 or score > 1 or garbage"
      [("score", PyVal.intV 3)] ["score > 5".data] "score > 1".data ["garbage".data]
      rfl rfl rfl rfl
      (by intro x hx; rw [List.mem_singleton] at hx; subst hx; rfl) rfl,
   compound_connectives_shortcircuit.2.2.2.2.1 "score > 5 or garbage or score > 1"
      [("score", PyVal.intV 3)] ["score > 5".data] "garbage".data ["score > 1".data]
      "Invalid condition format: garbage" rfl rfl rfl rfl
      (by intro x hx; rw [List.mem_singleton] at hx; subst hx; rfl) rfl,
   compound_connectives_shortcircuit.2.2.2.2.2 "score > 5 or garbage or score > 1"
      [("score", PyVal.intV 3)] "Invalid condition format: garbage" rfl rfl rfl rfl⟩

/-- C3 (code bug): with the rules `[auto_deny, auto_approve]` in that order
and a merged result map satisfying both, `_apply_decision_matrix` does not
return the `auto_deny` outcome — the first match makes it build
`status_map` (engine.py:341-346), whose entry
`LoanDecisionStatus.CONDITIONAL_APPROVAL` does not exist on the enum of
models/decision.py:17-24, so an `AttributeError` is raised instead. -/
theorem decision_matrix_match_raises_attribute_error :
    apply_decision_matrix
      [("auto_deny",
        { description := some "Application denied", conditions := ["risk_score < 900"] }),
       ("auto_approve",
        { description := some "Application approved", conditions := ["risk_score > 100"] })]
      exCtxRisk
    = .error "type object 'LoanDecisionStatus' has no attribute 'CONDITIONAL_APPROVAL'" := by
  rfl

/-- C10 (code bug): a decision-matrix entry with an empty (or missing,
which `config.get("conditions", [])` makes the same) condition list always
matches — for every context and whatever follows it in the table, the
first entry is selected; but instead of returning that entry's outcome
label the resolver raises the `AttributeError` of engine.py:343 (were the
entry not matching, the default manual-review outcome would be returned). -/
theorem empty_conditions_first_entry_always_selected :
    ∀ (ctx : OrchestrationContext) (label : String) (d : Option String)
      (rest : List (String × DecisionRuleCfg)),
      apply_decision_matrix ((label, { description := d, conditions := [] }) :: rest) ctx =
        .error "type object 'LoanDecisionStatus' has no attribute 'CONDITIONAL_APPROVAL'" := by
  intro ctx label d rest
  simp [apply_decision_matrix, decisionRuleMatches, statusMapEntries_eq, List.find?,
    Bind.bind, Except.bind]

theorem firstMissingDep_add_audit (deps : List String) (ctx : OrchestrationContext)
    (m : String) : firstMissingDep deps (add_audit_entry ctx m) = firstMissingDep deps ctx := by
  rfl

/-- C5: in the sequential executor, stage `i > 0` is gated on the handoff
check against stage `i-1`: a failed check appends the audit entry and ends
the run cleanly (`none` — nothing raised, nothing more executed, a partial
context); a stage whose execution fails has the failure recorded in the
context's error list and re-raised, and no later stage executes (the
executed list stops at the failing stage). -/
theorem sequential_gate_soft_and_error_failfast :
    (∀ (rules : List (String × HandoffRule)) (p : String) (cfg : AgentCfg)
        (o : StageOutcome) (rest : List (AgentCfg × StageOutcome)) (ctx : OrchestrationContext),
        check_handoff_conditions rules p ctx = false →
        seqLoop rules (some p) ((cfg, o) :: rest) ctx =
          (add_audit_entry (add_audit_entry ctx
              ("Handoff conditions not met for " ++ cfg.agentType ++ ", stopping workflow"))
            "Sequential execution completed", [], none))
  ∧ (∀ (rules : List (String × HandoffRule)) (prev : Option String) (cfg : AgentCfg)
        (e : String) (d : Rat) (rest : List (AgentCfg × StageOutcome)) (ctx : OrchestrationContext),
        seqGate rules prev ctx = true →
        (seqLoop rules prev ((cfg, Except.error (e, d)) :: rest) ctx).2.1 = [cfg.agentType]
        ∧ (seqLoop rules prev ((cfg, Except.error (e, d)) :: rest) ctx).2.2 = some e
        ∧ agentFailureMsg cfg.agentType d e ∈
            (seqLoop rules prev ((cfg, Except.error (e, d)) :: rest) ctx).1.errors) := by
  constructor
  · intro rules p cfg o rest ctx h
    simp [seqLoop, seqGate, h]
  · intro rules prev cfg e d rest ctx h
    refine ⟨?_, ?_, ?_⟩ <;>
      simp [seqLoop, h, execute_agent, recordAgentFailure, notify_agent_start,
        notify_agent_error, appendError, add_audit_entry]

/-- Witness for C5: a blocked handoff (intake score 600 against a
score-above-700 gate) ends the run cleanly; a failing first stage is
recorded and re-raised with nothing after it executed. -/
theorem sequential_gate_soft_and_error_failfast_witness :
    seqLoop [("intake", exRuleScore)] (some "intake")
        [({ agentType := "credit" }, Except.ok ([], 1))] exCtxIntakeLow =
      (add_audit_entry (add_audit_entry exCtxIntakeLow
          ("Handoff conditions not met for " ++ "credit" ++ ", stopping workflow"))
        "Sequential execution completed", [], none)
  ∧ ((seqLoop [] none [({ agentType := "intake" }, Except.error ("boom", 2))] exCtxEmpty).2.1
        = ["intake"]
    ∧ (seqLoop [] none [({ agentType := "intake" }, Except.error ("boom", 2))] exCtxEmpty).2.2
        = some "boom"
    ∧ agentFailureMsg "intake" 2 "boom" ∈
        (seqLoop [] none [({ agentType := "intake" }, Except.error ("boom", 2))] exCtxEmpty).1.errors) :=
  ⟨sequential_gate_soft_and_error_failfast.1 [("intake", exRuleScore)] "intake"
      { agentType := "credit" } (Except.ok ([], 1)) [] exCtxIntakeLow rfl,
   sequential_gate_soft_and_error_failfast.2 [] none { agentType := "intake" } "boom" 2 []
      exCtxEmpty rfl⟩

/-- C6: in the parallel executor a branch-stage failure is isolated.
Every branch task is attempted whatever the outcomes of its siblings (the
attempted list is always the full task list); a stage failure and a failed
dependency check are both recorded in the error list (and, being recorded
through `handle_branch_failure`, in the audit trail) without raising; and
with the initial stages succeeding, the synthesis stages still run after
the branch phase — whatever the branch outcomes — with the partial results
then available. -/
theorem parallel_branch_failure_isolation :
    (∀ (branches : List BranchCfg) (ctx : OrchestrationContext),
        (execute_parallel_branches branches ctx).2 =
          (branchTasks branches).map (fun t => t.2.1.agentType))
  ∧ (∀ (cfg : AgentCfg) (e : String) (dur : Rat) (bn : String) (ctx : OrchestrationContext),
        firstMissingDep cfg.depends_on ctx = none →
        ("Branch failure in " ++ bn ++ ": " ++ cfg.agentType ++ " failed with " ++ e) ∈
          (execute_branch_agent cfg (Except.error (e, dur)) bn ctx).errors)
  ∧ (∀ (cfg : AgentCfg) (o : StageOutcome) (bn : String) (ctx : OrchestrationContext)
        (dep : String),
        firstMissingDep cfg.depends_on ctx = some dep →
        ("Branch failure in " ++ bn ++ ": " ++ cfg.agentType ++ " failed with " ++
          ("Dependency '" ++ dep ++ "' not satisfied for agent '" ++ cfg.agentType ++ "'")) ∈
          (execute_branch_agent cfg o bn ctx).errors)
  ∧ (∀ (initial : List (AgentCfg × StageOutcome)) (branches : List BranchCfg)
        (synthesis : List (AgentCfg × StageOutcome)) (ctx : OrchestrationContext),
        (∀ x ∈ initial, stageSucceeds x.1 x.2 = true) →
        (∀ x ∈ synthesis, stageSucceeds x.1 x.2 = true) →
        (parallelExecute initial (some branches) synthesis ctx).2.1 =
          (branchTasks branches).map (fun t => t.2.1.agentType)
        ∧ (parallelExecute initial (some branches) synthesis ctx).2.2.1 =
            synthesis.map (fun x => x.1.agentType)
        ∧ (parallelExecute initial (some branches) synthesis ctx).2.2.2 = none) := by
  refine ⟨?_, ?_, ?_, ?_⟩
  · intro branches ctx
    exact execute_parallel_branches_attempted branches ctx
  · intro cfg e dur bn ctx hd
    simp only [execute_branch_agent, firstMissingDep_add_audit, hd]
    simp [execute_agent, recordAgentFailure, notify_agent_start, notify_agent_error,
      handle_branch_failure, appendError, add_audit_entry]
  · intro cfg o bn ctx dep hd
    simp only [execute_branch_agent, firstMissingDep_add_audit, hd]
    simp [handle_branch_failure, appendError, add_audit_entry]
  · intro initial branches synthesis ctx hI hS
    simp only [parallelExecute]
    have hi := initLoop_ok initial
      (add_audit_entry (add_audit_entry ctx "Starting parallel orchestration execution")
        ("Executing " ++ toString initial.length ++ " initial agents")) hI
    rw [hi]
    simp only [parallelTail, parallelBranchPhase]
    have hsy := execute_synthesis_agents_ok synthesis
      (execute_parallel_branches branches
        (initLoop initial
          (add_audit_entry (add_audit_entry ctx "Starting parallel orchestration execution")
            ("Executing " ++ toString initial.length ++ " initial agents"))).1).1 hS
    rw [hsy.2]
    exact ⟨execute_parallel_branches_attempted branches _, hsy.1, rfl⟩

/-- Witness for C6: two branches, the first failing with an external error,
plus a succeeding synthesis stage — both branch stages are attempted, the
failure is recorded, the synthesis stage still runs, and the run ends
without an exception. -/
theorem parallel_branch_failure_isolation_witness :
    (parallelExecute [] (some [exBranchCredit, exBranchIncome]) exSynthesis exCtxEmpty).2.1 =
      (branchTasks [exBranchCredit, exBranchIncome]).map (fun t => t.2.1.agentType)
  ∧ (parallelExecute [] (some [exBranchCredit, exBranchIncome]) exSynthesis exCtxEmpty).2.2.2 = none
  ∧ ("Branch failure in " ++ "credit_branch" ++ ": " ++ "credit" ++ " failed with " ++
        "LLM unavailable") ∈
      (execute_branch_agent { agentType := "credit" } (Except.error ("LLM unavailable", 2))
        "credit_branch" exCtxEmpty).errors :=
  ⟨(parallel_branch_failure_isolation.2.2.2 [] [exBranchCredit, exBranchIncome] exSynthesis
      exCtxEmpty (by simp) (by decide)).1,
   (parallel_branch_failure_isolation.2.2.2 [] [exBranchCredit, exBranchIncome] exSynthesis
      exCtxEmpty (by simp) (by decide)).2.2,
   parallel_branch_failure_isolation.2.1 { agentType := "credit" } "LLM unavailable" 2
      "credit_branch" exCtxEmpty rfl⟩

/-- C2 counterexample: run the engine on a pattern whose configuration
validation fails — the `OrchestrationContext` creation milestone is in the
trace, because engine.py:219 constructs the context unconditionally before
`validate_config` is called at engine.py:239; the claim states that no
`OrchestrationContext` is constructed in this case. -/
theorem context_created_despite_config_errors :
    EngineStep.createContext ∈
      (execute_pattern "LN0000000001" "session-1" "sequential" []
        ["Missing required field: name"] (fun c => (c, none)) []).1 := by
  decide

/-- C2 amended: when `validate_config` returns a non-empty error list, the
stage executor is never invoked and no stage runs, and the engine returns a
degraded manual-review decision with confidence 0 (the raised `ValueError`
is caught by the engine's own `except` block rather than aborting); the
`OrchestrationContext`, however, is already constructed by then. -/
theorem config_errors_block_executor :
    ∀ (aid sid pn : String) (ov : PyDict) (ce : List String)
      (exec : OrchestrationContext → OrchestrationContext × Option String)
      (dm : List (String × DecisionRuleCfg)),
      ce.isEmpty = false →
      ((execute_pattern aid sid pn ov ce exec dm).1 =
          [.loadPattern, .createContext, .validateConfig, .generateErrorDecision]
      ∧ EngineStep.invokeExecutor ∉ (execute_pattern aid sid pn ov ce exec dm).1
      ∧ EngineStep.createContext ∈ (execute_pattern aid sid pn ov ce exec dm).1
      ∧ (execute_pattern aid sid pn ov ce exec dm).2.decision = .manual_review
      ∧ (execute_pattern aid sid pn ov ce exec dm).2.confidence_score = 0) := by
  intro aid sid pn ov ce exec dm h
  have htr : (execute_pattern aid sid pn ov ce exec dm).1 =
      [.loadPattern, .createContext, .validateConfig, .generateErrorDecision] := by
    simp [execute_pattern, h]
  refine ⟨htr, ?_, ?_, ?_, ?_⟩
  · rw [htr]; decide
  · rw [htr]; decide
  · simp [execute_pattern, h, generate_error_decision]
  · simp [execute_pattern, h, generate_error_decision]

/-- Witness for the amended C2 at a concrete failing configuration. -/
theorem config_errors_block_executor_witness :
    (execute_pattern "LN0000000001" "session-1" "sequential" []
        ["Sequential pattern requires at least 2 agents"] (fun c => (c, none)) []).1 =
      [.loadPattern, .createContext, .validateConfig, .generateErrorDecision]
  ∧ EngineStep.invokeExecutor ∉
      (execute_pattern "LN0000000001" "session-1" "sequential" []
        ["Sequential pattern requires at least 2 agents"] (fun c => (c, none)) []).1
  ∧ EngineStep.createContext ∈
      (execute_pattern "LN0000000001" "session-1" "sequential" []
        ["Sequential pattern requires at least 2 agents"] (fun c => (c, none)) []).1
  ∧ (execute_pattern "LN0000000001" "session-1" "sequential" []
        ["Sequential pattern requires at least 2 agents"] (fun c => (c, none)) []).2.decision =
      .manual_review
  ∧ (execute_pattern "LN0000000001" "session-1" "sequential" []
        ["Sequential pattern requires at least 2 agents"] (fun c => (c, none)) []).2.confidence_score
      = 0 :=
  config_errors_block_executor "LN0000000001" "session-1" "sequential" []
    ["Sequential pattern requires at least 2 agents"] (fun c => (c, none)) [] rfl

/-- C1: for a configuration that passed validation (empty error list) the
engine always finishes by generating a decision — on every path the trace
ends in `generateDecision` or `generateErrorDecision`, never in a raised
exception (the model's engine is a total function into `LoanDecision`);
and when the executor raises, the engine catches it and returns the
degraded decision: outcome `manual_review`, confidence 0, the
`decision_reason` carrying the error text (truncated to 200 characters)
and the full error text embedded in the reasoning. -/
theorem engine_degraded_decision_on_executor_error :
    (∀ (aid sid pn : String) (ov : PyDict)
        (exec : OrchestrationContext → OrchestrationContext × Option String)
        (dm : List (String × DecisionRuleCfg)),
        (execute_pattern aid sid pn ov [] exec dm).1.getLast? =
            some EngineStep.generateDecision
        ∨ (execute_pattern aid sid pn ov [] exec dm).1.getLast? =
            some EngineStep.generateErrorDecision)
  ∧ (∀ (aid sid pn : String) (ov : PyDict)
        (exec : OrchestrationContext → OrchestrationContext × Option String)
        (dm : List (String × DecisionRuleCfg)) (ctx1 : OrchestrationContext) (e : String),
        exec (engineInitCtx aid sid pn ov) = (ctx1, some e) →
        ((execute_pattern aid sid pn ov [] exec dm).2.decision = .manual_review
        ∧ (execute_pattern aid sid pn ov [] exec dm).2.confidence_score = 0
        ∧ (execute_pattern aid sid pn ov [] exec dm).2.decision_reason =
            "Processing error: " ++ ofChars (e.data.take 200)
        ∧ containsSub e.data (execute_pattern aid sid pn ov [] exec dm).2.reasoning.data
            = true)) := by
  constructor
  · intro aid sid pn ov exec dm
    simp only [execute_pattern, List.isEmpty_nil, Bool.not_true, Bool.false_eq_true, if_false]
    rcases hx : (exec (engineInitCtx aid sid pn ov)).2 with _ | e
    · rcases hd : generate_loan_decision dm (exec (engineInitCtx aid sid pn ov)).1 with e2 | d
      · right; rfl
      · left; rfl
    · right; rfl
  · intro aid sid pn ov exec dm ctx1 e hexec
    have hx : (exec (engineInitCtx aid sid pn ov)).2 = some e := by rw [hexec]
    simp only [execute_pattern, List.isEmpty_nil, Bool.not_true, Bool.false_eq_true, if_false, hx]
    refine ⟨rfl, rfl, rfl, ?_⟩
    simp only [generate_error_decision, build_error_reasoning, String.data_append,
      List.append_assoc]
    apply containsSub_append_head
    apply containsSub_append_head
    apply containsSub_append_head
    apply containsSub_append_head
    apply containsSub_append_head
    exact containsSub_of_begins _ _ (beginsWith_refl_append _ _)

/-- Witness for C1: a concrete run whose executor raises a timeout-style
error; applying the theorem at this input yields the degraded decision
facts. -/
theorem engine_degraded_decision_on_executor_error_witness :
    ((execute_pattern "LN0000000001" "session-1" "sequential" [] []
        (fun c => (c, some "risk agent timed out after 120 seconds")) []).2.decision =
      .manual_review
    ∧ (execute_pattern "LN0000000001" "session-1" "sequential" [] []
        (fun c => (c, some "risk agent timed out after 120 seconds")) []).2.confidence_score = 0
    ∧ (execute_pattern "LN0000000001" "session-1" "sequential" [] []
        (fun c => (c, some "risk agent timed out after 120 seconds")) []).2.decision_reason =
      "Processing error: " ++ ofChars ("risk agent timed out after 120 seconds".data.take 200)
    ∧ containsSub "risk agent timed out after 120 seconds".data
        (execute_pattern "LN0000000001" "session-1" "sequential" [] []
          (fun c => (c, some "risk agent timed out after 120 seconds")) []).2.reasoning.data
      = true) :=
  engine_degraded_decision_on_executor_error.2 "LN0000000001" "session-1" "sequential" []
    (fun c => (c, some "risk agent timed out after 120 seconds")) []
    (engineInitCtx "LN0000000001" "session-1" "sequential" [])
    "risk agent timed out after 120 seconds" rfl

/-- C8: every modelled operation on the `OrchestrationContext` — the
primitive mutators of engine.py:62-121, the execution service, and both
pattern executors end to end — only ever appends to the audit trail and to
the error list: the old lists survive as prefixes in their original order
(`CtxExtends`), so nothing is removed or reordered and `errors` only
grows. -/
theorem context_lists_append_only :
    (∀ (ctx : OrchestrationContext) (m : String), CtxExtends ctx (add_audit_entry ctx m))
  ∧ (∀ (ctx : OrchestrationContext) (t : String) (r : PyDict) (d : Rat),
      CtxExtends ctx (set_agent_result ctx t r d))
  ∧ (∀ (ctx : OrchestrationContext) (e : String), CtxExtends ctx (appendError ctx e))
  ∧ (∀ (ctx : OrchestrationContext) (t : String), CtxExtends ctx (notify_agent_start ctx t))
  ∧ (∀ (ctx : OrchestrationContext) (t : String), CtxExtends ctx (notify_agent_thinking ctx t))
  ∧ (∀ (ctx : OrchestrationContext) (t e : String) (d : Rat),
      CtxExtends ctx (notify_agent_error ctx t e d))
  ∧ (∀ (cfg : AgentCfg) (o : StageOutcome) (ctx : OrchestrationContext),
      CtxExtends ctx (execute_agent cfg o ctx).1)
  ∧ (∀ (hr : List (String × HandoffRule)) (stages : List (AgentCfg × StageOutcome))
      (ctx : OrchestrationContext), CtxExtends ctx (sequentialExecute hr stages ctx).1)
  ∧ (∀ (cfg : AgentCfg) (o : StageOutcome) (bn : String) (ctx : OrchestrationContext),
      CtxExtends ctx (execute_branch_agent cfg o bn ctx))
  ∧ (∀ (branches : List BranchCfg) (ctx : OrchestrationContext),
      CtxExtends ctx (execute_parallel_branches branches ctx).1)
  ∧ (∀ (initial : List (AgentCfg × StageOutcome)) (branches : Option (List BranchCfg))
      (synthesis : List (AgentCfg × StageOutcome)) (ctx : OrchestrationContext),
      CtxExtends ctx (parallelExecute initial branches synthesis ctx).1) :=
  ⟨ctxExtends_add_audit_entry,
   ctxExtends_set_agent_result,
   ctxExtends_appendError,
   fun ctx _t => ctxExtends_refl ctx,
   fun ctx _t => ctxExtends_refl ctx,
   fun ctx _t _e _d => ctxExtends_refl ctx,
   ctxExtends_execute_agent,
   ctxExtends_sequentialExecute,
   ctxExtends_execute_branch_agent,
   ctxExtends_execute_parallel_branches,
   ctxExtends_parallelExecute⟩
